import Mathlib

/-!
# Lottery bot: conversation state machine and record store

A shallow embedding of `internal/models/models.go`, `internal/config/config.go`,
`internal/storage/storage.go`, `internal/storage/drive/drive.go` and
`internal/bot/bot.go`.

Modelling conventions.

* Go `int` and `int64` values are `Int`; the only arithmetic the program does on
  them that can overflow is `state.InvalidAttempts++`, which wraps explicitly
  (`wrapInt64`).
* A `float64` is carried as its IEEE-754 bit pattern (`Float64.bits`).  The
  program never does arithmetic on amounts; it only parses and prints them, and
  those library functions (`strconv.ParseFloat`, the `%.0f` and `%.2f` verbs)
  are fields of `Env`.
* A `time.Time` is an instant in nanoseconds since the Unix epoch together with
  the offset of its zone in seconds (`Time`).
* The outside world is an `Env`: the configuration, the successive readings of
  `time.Now()`, the outcome of each remote Drive call and of each Telegram send,
  and the library functions named above.  The mutable part is a `World`: the
  four JSON collections the handlers touch, the rate limiter map, the list of
  requests handed to the Telegram API, and two counters saying how many clock
  readings and how many Drive calls have been made so far.
* `log.Printf` has no effect on either and is left out.  The mutexes are not
  modelled: every function below is one sequential execution.
* Inbound messages and callbacks carry a sender and (for callbacks) the message
  the button was attached to, as Telegram sends them for chats with users.
-/

namespace LotteryBot

/-! ## models.go -/

/-- A `time.Time`: the instant and the zone offset it is displayed in. -/
structure Time where
  unixNano : Int
  zoneOffset : Int
deriving DecidableEq, Repr

/-- A `float64`, by bit pattern. -/
structure Float64 where
  bits : Nat
deriving DecidableEq, Repr

/-- The record `models.User`. -/
structure User where
  UserID : Int
  Username : String
  FirstName : String
  LastName : String
  JoinedDate : Time
  Status : String
deriving DecidableEq, Repr

/-- The record `models.LotteryEntry`. -/
structure LotteryEntry where
  EntryID : String
  UserID : Int
  TicketAmount : Float64
  TransactionID : String
  UniqueCode : String
  LuckyNumber : Int
  EntryDate : Time
  EntryTime : Time
  Status : String
deriving DecidableEq, Repr

/-- The record `models.Transaction`. -/
structure Transaction where
  TransactionID : String
  UserID : Int
  Amount : Float64
  Date : Time
  Time : Time
  Status : String
deriving DecidableEq, Repr

/-- The record `models.UserState`. -/
structure UserState where
  UserID : Int
  CurrentState : String
  SelectedAmount : Float64
  TransactionID : String
  UniqueCode : String
  InvalidAttempts : Int
  LastUpdated : Time
deriving DecidableEq, Repr

/-- The zero value of `time.Time` (January 1, year 1, 00:00:00 UTC). -/
def Time.zero : Time := { unixNano := -62135596800000000000, zoneOffset := 0 }

/-- The method `Time.IsZero`. -/
def Time.IsZero (t : Time) : Bool := decide (t.unixNano = Time.zero.unixNano)

/-- The method `Time.Before`: instants are compared, zones are not. -/
def Time.Before (t u : Time) : Bool := decide (t.unixNano < u.unixNano)

/-- The method `Time.After`. -/
def Time.After (t u : Time) : Bool := decide (t.unixNano > u.unixNano)

/-- The zero value of `float64`. -/
def Float64.zero : Float64 := { bits := 0 }

/-! ## config.go -/

/-- The part of `config.Config` the bot reads. -/
structure Config where
  BotName : String
  AdminIDs : List String
  LotteryProof : String
  LotteryWin : String
  QRCodeLink : String
  Prices : List Float64
  MaxInvalidAttempts : Int
  CommandRateLimit : Int
deriving DecidableEq, Repr

/-! ## storage.go -/

/-- A Go `error` value: either a plain `fmt.Errorf` error or a
`*storage.StorageError` wrapping another error. -/
inductive GoError where
  | errorf (msg : String)
  | storageError (Operation : String) (Err : GoError)
deriving DecidableEq, Repr

/-- The method `StorageError.Error`. -/
def GoError.Error : GoError → String
  | GoError.errorf msg => msg
  | GoError.storageError op err => op ++ ": " ++ err.Error

/-- The constructor `storage.NewStorageError`. -/
def NewStorageError (operation : String) (err : GoError) : GoError :=
  GoError.storageError operation err

/-! ## The outside world -/

/-- The outcome of one remote Drive call: it succeeds, the transfer fails, or
the JSON step (decode on read, marshal on write) fails. -/
inductive Fault where
  | ok
  | transport
  | codec
deriving DecidableEq, Repr

/-- One button of an inline keyboard: its label and its callback data. -/
structure Button where
  label : String
  data : String
deriving DecidableEq, Repr

/-- A request handed to `b.api.Send`. -/
inductive Outbound where
  | message (chatID : Int) (text : String) (keyboard : List (List Button)) (parseMode : String)
  | editText (chatID : Int) (messageID : Int) (text : String) (keyboard : List (List Button))
  | photo (chatID : Int) (url : String) (caption : String) (keyboard : List (List Button))
  | document (chatID : Int) (name : String) (bytes : String)
  | callbackAnswer (id : String)
deriving DecidableEq, Repr

/-- Everything the program reads but does not control. -/
structure Env where
  config : Config
  clock : Nat → Time
  faults : Nat → Fault
  sendFails : Nat → Bool
  parseFloat : String → Option Float64
  fmtF0 : Float64 → String
  fmtF2 : Float64 → String
  parseDate : String → Option Time
  formatTime : String → Time → String

/-- The mutable state: Drive collections, rate limiter, outbox, counters. -/
structure World where
  users : List User
  entries : List LotteryEntry
  transactions : List Transaction
  states : List UserState
  rateLimiter : List (String × Time)
  sent : List Outbound
  ticks : Nat
  calls : Nat
deriving DecidableEq, Repr

/-- A call of `time.Now()`: the next reading of the clock. -/
def timeNow (env : Env) (w : World) : Time × World :=
  (env.clock w.ticks, { w with ticks := w.ticks + 1 })

/-- A call of `b.api.Send`: the request is handed over; the result says whether
the call returned an error. -/
def apiSend (env : Env) (req : Outbound) (w : World) : Bool × World :=
  (env.sendFails w.sent.length, { w with sent := w.sent ++ [req] })

/-! ## Library functions on strings and integers -/

/-- The largest `int64`. -/
def maxInt64 : Int := 9223372036854775807

/-- The smallest `int64`. -/
def minInt64 : Int := -9223372036854775808

/-- Two's-complement wrap-around of an `int64` result. -/
def wrapInt64 (x : Int) : Int := (x + 9223372036854775808) % 18446744073709551616 - 9223372036854775808

/-- The value of a decimal digit byte. -/
def digitVal (c : Char) : Option Nat :=
  if 48 ≤ c.toNat ∧ c.toNat ≤ 57 then some (c.toNat - 48) else none

/-- The digit loop of `strconv.Atoi` and `strconv.ParseUint` in base 10. -/
def parseDigits : List Char → Nat → Option Nat
  | [], acc => some acc
  | c :: cs, acc =>
    match digitVal c with
    | none => none
    | some d => parseDigits cs (acc * 10 + d)

/-- The function `strconv.Atoi`: an optional sign, then one or more decimal
digits, the value fitting an `int`; `none` stands for a non-nil error. -/
def Atoi (s : String) : Option Int :=
  match s.data with
  | [] => none
  | c :: cs =>
    let neg : Bool := decide (c = '-')
    let ds : List Char := if c = '-' ∨ c = '+' then cs else c :: cs
    match ds with
    | [] => none
    | d :: rest =>
      match parseDigits (d :: rest) 0 with
      | none => none
      | some n =>
        let v : Int := if neg then -(n : Int) else (n : Int)
        if minInt64 ≤ v ∧ v ≤ maxInt64 then some v else none

/-- The function `strconv.FormatInt(n, 10)`, also the verb `%d`. -/
def FormatInt (n : Int) : String := toString n

/-- The pieces of a character list between occurrences of `sep`. -/
def splitChars (sep : Char) : List Char → List (List Char)
  | [] => [[]]
  | c :: cs =>
    if c = sep then [] :: splitChars sep cs
    else
      match splitChars sep cs with
      | [] => [[c]]
      | p :: ps => (c :: p) :: ps

/-- The function `strings.Split` for a one-character separator. -/
def Split (s : String) (sep : Char) : List String :=
  (splitChars sep s.data).map String.mk

/-- The predicate `unicode.IsSpace`. -/
def isSpace (c : Char) : Bool :=
  let n := c.toNat
  decide (n = 9 ∨ n = 10 ∨ n = 11 ∨ n = 12 ∨ n = 13 ∨ n = 32 ∨ n = 133 ∨ n = 160 ∨ n = 5760
    ∨ (8192 ≤ n ∧ n ≤ 8202) ∨ n = 8232 ∨ n = 8233 ∨ n = 8239 ∨ n = 8287 ∨ n = 12288)

/-- The loop of `strings.Fields`: `cur` is the field being read, reversed. -/
def fieldsAux : List Char → List Char → List (List Char)
  | [], cur => if cur = [] then [] else [cur.reverse]
  | c :: cs, cur =>
    if isSpace c then
      (if cur = [] then fieldsAux cs [] else cur.reverse :: fieldsAux cs [])
    else fieldsAux cs (c :: cur)

/-- The function `strings.Fields`. -/
def Fields (s : String) : List String :=
  (fieldsAux s.data []).map String.mk

/-! ## drive.go -/

/-- The file name of the users collection. -/
def usersFile : String := "users.json"

/-- The file name of the lottery entries collection. -/
def entriesFile : String := "lottery_entries.json"

/-- The file name of the transactions collection. -/
def transactionsFile : String := "transactions.json"

/-- The file name of the user states collection. -/
def statesFile : String := "user_states.json"

/-- The method `readFile`: one remote call, which downloads and decodes the
collection or fails.  `NewDriveStorage` fills `fileCache` for every collection,
so the lookup in it succeeds.  The text of the underlying cause is left out of
the message. -/
def readFile (env : Env) (filename : String) (w : World) : Option GoError × World :=
  match env.faults w.calls with
  | Fault.ok => (none, { w with calls := w.calls + 1 })
  | Fault.transport =>
    (some (GoError.errorf ("failed to download file " ++ filename)), { w with calls := w.calls + 1 })
  | Fault.codec =>
    (some (GoError.errorf ("failed to decode JSON from file " ++ filename)),
      { w with calls := w.calls + 1 })

/-- The method `writeFile`: marshal, then one remote call uploading the whole
collection, or a failure.  The caller stores the new collection on success. -/
def writeFile (env : Env) (filename : String) (w : World) : Option GoError × World :=
  match env.faults w.calls with
  | Fault.ok => (none, { w with calls := w.calls + 1 })
  | Fault.transport =>
    (some (GoError.errorf ("failed to write file " ++ filename)), { w with calls := w.calls + 1 })
  | Fault.codec =>
    (some (GoError.errorf "failed to marshal data"), { w with calls := w.calls + 1 })

/-- The loop of `SaveUser`: replace the first record with the same ID and
report whether one was found. -/
def SaveUser.loop (user : User) : List User → List User × Bool
  | [] => ([], false)
  | u :: rest =>
    if u.UserID = user.UserID then (user :: rest, true)
    else ((u :: (SaveUser.loop user rest).1), (SaveUser.loop user rest).2)

/-- The in-memory step of `SaveUser`: the loop, then the append when nothing was
found. -/
def SaveUser.update (users : List User) (user : User) : List User :=
  if (SaveUser.loop user users).2 then (SaveUser.loop user users).1
  else (SaveUser.loop user users).1 ++ [user]

/-- The method `DriveStorage.SaveUser`. -/
def SaveUser (env : Env) (user : User) (w : World) : Option GoError × World :=
  let r := readFile env usersFile w
  match r.1 with
  | some err => (some (NewStorageError "SaveUser" err), r.2)
  | none =>
    let r2 := writeFile env usersFile r.2
    match r2.1 with
    | some err => (some err, r2.2)
    | none => (none, { r2.2 with users := SaveUser.update r.2.users user })

/-- The search loop of `GetUser`. -/
def GetUser.loop (userID : Int) : List User → Option User
  | [] => none
  | user :: rest => if user.UserID = userID then some user else GetUser.loop userID rest

/-- The method `DriveStorage.GetUser`. -/
def GetUser (env : Env) (userID : Int) (w : World) : Except GoError User × World :=
  let r := readFile env usersFile w
  match r.1 with
  | some err => (Except.error (NewStorageError "GetUser" err), r.2)
  | none =>
    match GetUser.loop userID r.2.users with
    | some user => (Except.ok user, r.2)
    | none => (Except.error (NewStorageError "GetUser" (GoError.errorf "user not found")), r.2)

/-- The method `DriveStorage.GetAllUsers`. -/
def GetAllUsers (env : Env) (fromDate toDate : Time) (w : World) :
    Except GoError (List User) × World :=
  let r := readFile env usersFile w
  match r.1 with
  | some err => (Except.error (NewStorageError "GetAllUsers" err), r.2)
  | none =>
    if fromDate.IsZero && toDate.IsZero then (Except.ok r.2.users, r.2)
    else
      (Except.ok (r.2.users.filter (fun user =>
        (fromDate.IsZero || !(user.JoinedDate.Before fromDate)) &&
        (toDate.IsZero || !(user.JoinedDate.After toDate)))), r.2)

/-- The method `DriveStorage.SaveTransaction`. -/
def SaveTransaction (env : Env) (txn : Transaction) (w : World) : Option GoError × World :=
  let r := readFile env transactionsFile w
  match r.1 with
  | some err => (some (NewStorageError "SaveTransaction" err), r.2)
  | none =>
    let r2 := writeFile env transactionsFile r.2
    match r2.1 with
    | some err => (some err, r2.2)
    | none => (none, { r2.2 with transactions := r.2.transactions ++ [txn] })

/-- The search loop of `GetTransaction`. -/
def GetTransaction.loop (txnID : String) : List Transaction → Option Transaction
  | [] => none
  | txn :: rest => if txn.TransactionID = txnID then some txn else GetTransaction.loop txnID rest

/-- The method `DriveStorage.GetTransaction`. -/
def GetTransaction (env : Env) (txnID : String) (w : World) :
    Except GoError Transaction × World :=
  let r := readFile env transactionsFile w
  match r.1 with
  | some err => (Except.error (NewStorageError "GetTransaction" err), r.2)
  | none =>
    match GetTransaction.loop txnID r.2.transactions with
    | some txn => (Except.ok txn, r.2)
    | none =>
      (Except.error (NewStorageError "GetTransaction" (GoError.errorf "transaction not found")), r.2)

/-- The nanoseconds in `24 * time.Hour`. -/
def dayNanos : Int := 86400000000000

/-- The expression `time.Date(date.Year(), date.Month(), date.Day(), 0, 0, 0, 0,
date.Location())`: midnight of the civil day of `date` in its own zone. -/
def startOfDay (date : Time) : Time :=
  { unixNano := date.unixNano -
      (date.unixNano + date.zoneOffset * 1000000000) % dayNanos,
    zoneOffset := date.zoneOffset }

/-- The method `Time.Add`. -/
def Time.Add (t : Time) (d : Int) : Time := { t with unixNano := t.unixNano + d }

/-- The method `DriveStorage.GetTransactionsByDate`. -/
def GetTransactionsByDate (env : Env) (date : Time) (w : World) :
    Except GoError (List Transaction) × World :=
  let r := readFile env transactionsFile w
  match r.1 with
  | some err => (Except.error (NewStorageError "GetTransactionsByDate" err), r.2)
  | none =>
    let startDate := startOfDay date
    let endDate := startDate.Add dayNanos
    (Except.ok (r.2.transactions.filter (fun txn =>
      txn.Date.After startDate && txn.Date.Before endDate)), r.2)

/-- The method `DriveStorage.IsTransactionUsed`. -/
def IsTransactionUsed (env : Env) (txnID : String) (w : World) : Except GoError Bool × World :=
  let r := readFile env transactionsFile w
  match r.1 with
  | some err => (Except.error (NewStorageError "IsTransactionUsed" err), r.2)
  | none => (Except.ok (r.2.transactions.any (fun txn => txn.TransactionID = txnID)), r.2)

/-- The method `DriveStorage.SaveLotteryEntry`. -/
def SaveLotteryEntry (env : Env) (entry : LotteryEntry) (w : World) : Option GoError × World :=
  let r := readFile env entriesFile w
  match r.1 with
  | some err => (some (NewStorageError "SaveLotteryEntry" err), r.2)
  | none =>
    let r2 := writeFile env entriesFile r.2
    match r2.1 with
    | some err => (some err, r2.2)
    | none => (none, { r2.2 with entries := r.2.entries ++ [entry] })

/-- The method `DriveStorage.GetEntriesByDate`. -/
def GetEntriesByDate (env : Env) (date : Time) (w : World) :
    Except GoError (List LotteryEntry) × World :=
  let r := readFile env entriesFile w
  match r.1 with
  | some err => (Except.error (NewStorageError "GetEntriesByDate" err), r.2)
  | none =>
    let startDate := startOfDay date
    let endDate := startDate.Add dayNanos
    (Except.ok (r.2.entries.filter (fun entry =>
      entry.EntryDate.After startDate && entry.EntryDate.Before endDate)), r.2)

/-- The loop of `SaveUserState`: replace the first record with the same user ID
and report whether one was found. -/
def SaveUserState.loop (state : UserState) : List UserState → List UserState × Bool
  | [] => ([], false)
  | s :: rest =>
    if s.UserID = state.UserID then (state :: rest, true)
    else ((s :: (SaveUserState.loop state rest).1), (SaveUserState.loop state rest).2)

/-- The in-memory step of `SaveUserState`. -/
def SaveUserState.update (states : List UserState) (state : UserState) : List UserState :=
  if (SaveUserState.loop state states).2 then (SaveUserState.loop state states).1
  else (SaveUserState.loop state states).1 ++ [state]

/-- The method `DriveStorage.SaveUserState`. -/
def SaveUserState (env : Env) (state : UserState) (w : World) : Option GoError × World :=
  let r := readFile env statesFile w
  match r.1 with
  | some err => (some (NewStorageError "SaveUserState" err), r.2)
  | none =>
    let r2 := writeFile env statesFile r.2
    match r2.1 with
    | some err => (some err, r2.2)
    | none => (none, { r2.2 with states := SaveUserState.update r.2.states state })

/-- The search loop of `GetUserState`. -/
def GetUserState.loop (userID : Int) : List UserState → Option UserState
  | [] => none
  | state :: rest => if state.UserID = userID then some state else GetUserState.loop userID rest

/-- The method `DriveStorage.GetUserState`: the stored record, or a new one
stamped with the current time when there is none. -/
def GetUserState (env : Env) (userID : Int) (w : World) : Except GoError UserState × World :=
  let r := readFile env statesFile w
  match r.1 with
  | some err => (Except.error (NewStorageError "GetUserState" err), r.2)
  | none =>
    match GetUserState.loop userID r.2.states with
    | some state => (Except.ok state, r.2)
    | none =>
      ((Except.ok
        { UserID := userID, CurrentState := "", SelectedAmount := Float64.zero,
          TransactionID := "", UniqueCode := "", InvalidAttempts := 0,
          LastUpdated := (timeNow env r.2).1 }), (timeNow env r.2).2)

/-- The loop of `DeleteUserState`: drop the first record of the user. -/
def DeleteUserState.loop (userID : Int) : List UserState → List UserState
  | [] => []
  | state :: rest =>
    if state.UserID = userID then rest else state :: DeleteUserState.loop userID rest

/-- The method `DriveStorage.DeleteUserState`. -/
def DeleteUserState (env : Env) (userID : Int) (w : World) : Option GoError × World :=
  let r := readFile env statesFile w
  match r.1 with
  | some err => (some (NewStorageError "DeleteUserState" err), r.2)
  | none =>
    let r2 := writeFile env statesFile r.2
    match r2.1 with
    | some err => (some err, r2.2)
    | none => (none, { r2.2 with states := DeleteUserState.loop userID r.2.states })

/-! ## bot.go -/

/-- The sender of a message or callback (`tgbotapi.User`). -/
structure TgUser where
  ID : Int
  UserName : String
  FirstName : String
  LastName : String
deriving DecidableEq, Repr

/-- An inbound `tgbotapi.Message`.  The last three fields are what the library
methods `IsCommand()`, `Command()` and `CommandArguments()` return for it. -/
structure Message where
  MessageID : Int
  From : TgUser
  ChatID : Int
  Text : String
  IsCommand : Bool
  Command : String
  CommandArguments : String
deriving DecidableEq, Repr

/-- An inbound `tgbotapi.CallbackQuery`: who pressed the button, the message the
button was attached to, and the callback data. -/
structure CallbackQuery where
  ID : String
  From : TgUser
  Message : Message
  Data : String
deriving DecidableEq, Repr

/-- An inbound `tgbotapi.Update`. -/
structure Update where
  Message : Option Message
  CallbackQuery : Option CallbackQuery
deriving DecidableEq, Repr

/-- The method `sendMessage`; no caller passes options. -/
def sendMessage (env : Env) (chatID : Int) (text : String) (w : World) : World :=
  (apiSend env (Outbound.message chatID text [] "") w).2

/-- The method `createInlineKeyboard`: each button string is `label|data`.
Every button string built in this file contains the separator. -/
def createInlineKeyboard (buttons : List (List String)) : List (List Button) :=
  buttons.map (fun row => row.map (fun button =>
    { label := (Split button '|').getD 0 "", data := (Split button '|').getD 1 "" }))

/-- The method `isAdmin`. -/
def isAdmin (env : Env) (userID : Int) : Bool :=
  env.config.AdminIDs.any (fun adminID => adminID = FormatInt userID)

/-- The `Load` of the rate limiter map. -/
def rateLoad (key : String) : List (String × Time) → Option Time
  | [] => none
  | (k, t) :: rest => if k = key then some t else rateLoad key rest

/-- The `Store` of the rate limiter map. -/
def rateStore (key : String) (now : Time) : List (String × Time) → List (String × Time)
  | [] => [(key, now)]
  | (k, t) :: rest => if k = key then (key, now) :: rest else (k, t) :: rateStore key now rest

/-- The method `checkRateLimit`.  `none` is the division-by-zero panic of
`60/b.config.Limits.CommandRateLimit`; the quotient truncates towards zero, and
the elapsed seconds are below it exactly when the elapsed nanoseconds are below
it times `10^9`. -/
def checkRateLimit (env : Env) (userID : Int) (w : World) : Option Bool × World :=
  let key := FormatInt userID
  let now := (timeNow env w).1
  let w1 := (timeNow env w).2
  match rateLoad key w1.rateLimiter with
  | some lastTime =>
    if env.config.CommandRateLimit = 0 then (none, w1)
    else if now.unixNano - lastTime.unixNano
        < (Int.tdiv 60 env.config.CommandRateLimit) * 1000000000 then (some false, w1)
    else (some true, { w1 with rateLimiter := rateStore key now w1.rateLimiter })
  | none => (some true, { w1 with rateLimiter := rateStore key now w1.rateLimiter })

/-- The method `handleStartCommand`. -/
def handleStartCommand (env : Env) (message : Message) (w : World) : World :=
  let user : User :=
    { UserID := message.From.ID, Username := message.From.UserName,
      FirstName := message.From.FirstName, LastName := message.From.LastName,
      JoinedDate := (timeNow env w).1, Status := "active" }
  let w1 := (SaveUser env user (timeNow env w).2).2
  let welcomeMsg :=
    "नमस्ते " ++ message.From.FirstName ++ ", " ++ env.config.BotName ++ " में आपका स्वागत है! 👋\n\n"
      ++ "यह एक Lottery Bot है, टिकट खरीदने और भाग्य आजमाने के लिए नीचे दिए गए बटन पर क्लिक करें।\n\n"
      ++ "लॉटरी प्रूफ चैनल: " ++ env.config.LotteryProof
  let keyboard := createInlineKeyboard [["लॉटरी टिकट खरीदें|select_amount:start"]]
  (apiSend env (Outbound.message message.ChatID welcomeMsg keyboard "HTML") w1).2

/-- The method `handleTransactionIDSubmission`. -/
def handleTransactionIDSubmission (env : Env) (message : Message) (state : UserState)
    (w : World) : World :=
  let txnID := message.Text
  let r := IsTransactionUsed env txnID w
  match r.1 with
  | Except.error _ =>
    sendMessage env message.ChatID "⚠️ कुछ गड़बड़ी हुई। कृपया पुनः प्रयास करें।" r.2
  | Except.ok used =>
    if used then
      sendMessage env message.ChatID
        "⚠️ माफ़ करना! यह Transaction ID पहले ही इस्तेमाल हो चुकी है। कृपया दूसरी Transaction ID डालें।" r.2
    else
      let uniqueCode := "LC" ++ FormatInt (timeNow env r.2).1.unixNano
      let state1 : UserState :=
        { state with CurrentState := "awaiting_lucky_number", TransactionID := txnID,
                     UniqueCode := uniqueCode }
      let r2 := SaveUserState env state1 (timeNow env r.2).2
      match r2.1 with
      | some _ =>
        sendMessage env message.ChatID "⚠️ कुछ गड़बड़ी हुई। कृपया पुनः प्रयास करें।" r2.2
      | none =>
        let msg :=
          "✅ पेमेंट कन्फर्म! आपका Transaction ID है: " ++ txnID ++ " \n\n"
            ++ "आपका Unique Code है: " ++ uniqueCode ++ " \n\n"
            ++ "अब 1 से 100 के बीच कोई भी एक Lucky Number चुनें:"
        let keyboard := createInlineKeyboard [["पिछला|navigation:back", "होम|navigation:home"]]
        (apiSend env (Outbound.message message.ChatID msg keyboard "") r2.2).2

/-- The method `handleLuckyNumberSubmission`. -/
def handleLuckyNumberSubmission (env : Env) (message : Message) (state : UserState)
    (w : World) : World :=
  match Atoi message.Text with
  | none =>
    sendMessage env message.ChatID
      "माफ़ करना, wrong number. कृपया 1 से 100 के बीच में ही नंबर चुनें।" w
  | some number =>
    if number < 1 ∨ number > 100 then
      sendMessage env message.ChatID
        "माफ़ करना, wrong number. कृपया 1 से 100 के बीच में ही नंबर चुनें।" w
    else
      let t1 := timeNow env w
      let t2 := timeNow env t1.2
      let t3 := timeNow env t2.2
      let entry : LotteryEntry :=
        { EntryID := "ENTRY" ++ FormatInt t1.1.unixNano, UserID := message.From.ID,
          TicketAmount := state.SelectedAmount, TransactionID := state.TransactionID,
          UniqueCode := state.UniqueCode, LuckyNumber := number, EntryDate := t2.1,
          EntryTime := t3.1, Status := "active" }
      let r := SaveLotteryEntry env entry t3.2
      match r.1 with
      | some _ =>
        sendMessage env message.ChatID "⚠️ कुछ गड़बड़ी हुई। कृपया पुनः प्रयास करें।" r.2
      | none =>
        let w2 := (DeleteUserState env message.From.ID r.2).2
        let msg :=
          "👍 आपका नंबर " ++ FormatInt number
            ++ " चुना गया है! आपकी Lottery Entry सफलतापूर्वक रजिस्टर हो गई है। \n\n"
            ++ "Result [Lottery Result Announcement Time] पर Lottery Proof चैनल "
            ++ env.config.LotteryProof ++ " में announce किए जाएंगे। \n\n" ++ "शुभकामनाएं!"
        let keyboard := createInlineKeyboard [["होम|navigation:home"]]
        (apiSend env (Outbound.message message.ChatID msg keyboard "") w2).2

/-- The method `handleWinnerCountSubmission`. -/
def handleWinnerCountSubmission (env : Env) (message : Message) (state : UserState)
    (w : World) : World :=
  match Atoi message.Text with
  | none => sendMessage env message.ChatID "⚠️ कृपया 1 से 10 के बीच एक नंबर भेजें" w
  | some count =>
    if count < 1 ∨ count > 10 then
      sendMessage env message.ChatID "⚠️ कृपया 1 से 10 के बीच एक नंबर भेजें" w
    else
      let buttons :=
        [["Random|winner_method:random"], ["First Come First Serve|winner_method:fcfs"],
         ["Most Guessed Number|winner_method:most_guessed"],
         ["Least Guessed Number|winner_method:least_guessed"],
         ["Manual Selection|winner_method:manual"]]
      let state1 : UserState :=
        { state with CurrentState := "selecting_winner_method", LastUpdated := (timeNow env w).1 }
      let w1 := (SaveUserState env state1 (timeNow env w).2).2
      let msg := "Selection method क्या होगी? (Winners: " ++ FormatInt count ++ ")"
      (apiSend env (Outbound.message message.ChatID msg (createInlineKeyboard buttons) "") w1).2

/-- The method `handleUnexpectedInput`. -/
def handleUnexpectedInput (env : Env) (message : Message) (state : UserState)
    (w : World) : World :=
  let state1 : UserState := { state with InvalidAttempts := wrapInt64 (state.InvalidAttempts + 1) }
  let w1 := (SaveUserState env state1 w).2
  if state1.InvalidAttempts ≥ env.config.MaxInvalidAttempts then
    handleStartCommand env message (DeleteUserState env message.From.ID w1).2
  else
    let msg :=
      "⚠️ माफ़ करना, मुझे आपका इनपुट समझ में नहीं आया!\n\n"
        ++ "कृपया दिए गए विकल्पों में से चुनें या सही format में input भेजें।\n\n"
        ++ "किसी भी समस्या के लिए, " ++ env.config.LotteryWin ++ " पर Lottery Win चैनल से संपर्क करें।"
    sendMessage env message.ChatID msg w1

/-- The method `sendViewDataHelp`. -/
def sendViewDataHelp (env : Env) (chatID : Int) (w : World) : World :=
  sendMessage env chatID
    ("View Data Commands:\n"
      ++ "/view_data user @username - View user data\n"
      ++ "/view_data txn <transaction_id> - View transaction data\n"
      ++ "/view_data date YYYY-MM-DD - View lottery entries for date\n"
      ++ "/view_data txndate YYYY-MM-DD - View transactions for date\n"
      ++ "/view_data help - Show this help message") w

/-- The method `handleViewUserData`. -/
def handleViewUserData (env : Env) (chatID : Int) (_username : String) (w : World) : World :=
  sendMessage env chatID "⚠️ Feature under development" w

/-- The method `handleViewTransactionData`. -/
def handleViewTransactionData (env : Env) (chatID : Int) (txnID : String) (w : World) : World :=
  let r := GetTransaction env txnID w
  match r.1 with
  | Except.error _ => sendMessage env chatID "⚠️ Transaction not found" r.2
  | Except.ok txn =>
    sendMessage env chatID
      ("Transaction Details:\n" ++ "ID: " ++ txn.TransactionID ++ "\n"
        ++ "User ID: " ++ FormatInt txn.UserID ++ "\n"
        ++ "Amount: ₹" ++ env.fmtF2 txn.Amount ++ "\n"
        ++ "Date: " ++ env.formatTime "2006-01-02" txn.Date ++ "\n"
        ++ "Time: " ++ env.formatTime "15:04:05" txn.Time ++ "\n"
        ++ "Status: " ++ txn.Status) r.2

/-- The method `handleViewDateData`. -/
def handleViewDateData (env : Env) (chatID : Int) (dateStr : String) (w : World) : World :=
  match env.parseDate dateStr with
  | none => sendMessage env chatID "⚠️ Invalid date format. Use YYYY-MM-DD" w
  | some date =>
    let r := GetEntriesByDate env date w
    match r.1 with
    | Except.error _ => sendMessage env chatID "⚠️ Failed to get entries" r.2
    | Except.ok entries =>
      if entries.length = 0 then sendMessage env chatID "No entries found for this date" r.2
      else
        sendMessage env chatID
          (entries.foldl (fun msg entry =>
            msg ++ ("Entry ID: " ++ entry.EntryID ++ "\n"
              ++ "User ID: " ++ FormatInt entry.UserID ++ "\n"
              ++ "Amount: ₹" ++ env.fmtF2 entry.TicketAmount ++ "\n"
              ++ "Number: " ++ FormatInt entry.LuckyNumber ++ "\n"
              ++ "Status: " ++ entry.Status ++ "\n\n"))
            ("Entries for " ++ dateStr ++ ":\n\n")) r.2

/-- The method `handleViewTransactionsByDate`. -/
def handleViewTransactionsByDate (env : Env) (chatID : Int) (dateStr : String)
    (w : World) : World :=
  match env.parseDate dateStr with
  | none => sendMessage env chatID "⚠️ Invalid date format. Use YYYY-MM-DD" w
  | some date =>
    let r := GetTransactionsByDate env date w
    match r.1 with
    | Except.error _ => sendMessage env chatID "⚠️ Failed to get transactions" r.2
    | Except.ok txns =>
      if txns.length = 0 then sendMessage env chatID "No transactions found for this date" r.2
      else
        sendMessage env chatID
          (txns.foldl (fun msg txn =>
            msg ++ ("Transaction ID: " ++ txn.TransactionID ++ "\n"
              ++ "User ID: " ++ FormatInt txn.UserID ++ "\n"
              ++ "Amount: ₹" ++ env.fmtF2 txn.Amount ++ "\n"
              ++ "Time: " ++ env.formatTime "15:04:05" txn.Time ++ "\n"
              ++ "Status: " ++ txn.Status ++ "\n\n"))
            ("Transactions for " ++ dateStr ++ ":\n\n")) r.2

/-- The method `handleViewDataCommand`. -/
def handleViewDataCommand (env : Env) (message : Message) (w : World) : World :=
  if !(isAdmin env message.From.ID) then sendMessage env message.ChatID "⚠️ आप Admin नहीं हैं!" w
  else
    match Fields message.CommandArguments with
    | arg0 :: arg1 :: _ =>
      if arg0 = "user" then handleViewUserData env message.ChatID arg1 w
      else if arg0 = "txn" then handleViewTransactionData env message.ChatID arg1 w
      else if arg0 = "date" then handleViewDateData env message.ChatID arg1 w
      else if arg0 = "txndate" then handleViewTransactionsByDate env message.ChatID arg1 w
      else sendViewDataHelp env message.ChatID w
    | _ => sendViewDataHelp env message.ChatID w

/-- The button rows built from the configured prices, with callback action
`action`, as both `handleSelectWinnerCommand` and `handleAmountSelection` do. -/
def priceButtons (env : Env) (action : String) : List (List String) :=
  env.config.Prices.map (fun price =>
    [("₹" ++ env.fmtF0 price) ++ "|" ++ action ++ ":" ++ env.fmtF0 price])

/-- The method `handleSelectWinnerCommand`. -/
def handleSelectWinnerCommand (env : Env) (message : Message) (w : World) : World :=
  if !(isAdmin env message.From.ID) then sendMessage env message.ChatID "⚠️ आप Admin नहीं हैं!" w
  else
    (apiSend env (Outbound.message message.ChatID
      "कौनसा lottery amount का winner select करना है?"
      (createInlineKeyboard (priceButtons env "winner_amount")) "") w).2

/-- The method `handleExportUsersCommand`. -/
def handleExportUsersCommand (env : Env) (message : Message) (w : World) : World :=
  if !(isAdmin env message.From.ID) then sendMessage env message.ChatID "⚠️ आप Admin नहीं हैं!" w
  else
    let r := GetAllUsers env Time.zero (timeNow env w).1 (timeNow env w).2
    match r.1 with
    | Except.error _ => sendMessage env message.ChatID "⚠️ डेटा प्राप्त करने में त्रुटि हुई" r.2
    | Except.ok users =>
      let data :=
        users.foldl (fun data user =>
          data ++ (FormatInt user.UserID ++ "," ++ user.Username ++ "," ++ user.FirstName ++ ","
            ++ user.LastName ++ "," ++ env.formatTime "2006-01-02 15:04:05" user.JoinedDate ++ ","
            ++ user.Status ++ "\n"))
          "User ID,Username,First Name,Last Name,Joined Date,Status\n"
      let r2 := apiSend env (Outbound.document message.ChatID "users.csv" data) r.2
      if r2.1 then sendMessage env message.ChatID "⚠️ फ़ाइल भेजने में त्रुटि हुई" r2.2 else r2.2

/-- The method `handleAmountSelection`. -/
def handleAmountSelection (env : Env) (callback : CallbackQuery) (data : String)
    (w : World) : World :=
  if data = "start" then
    let buttons := priceButtons env "select_amount" ++ [["होम|navigation:home"]]
    (apiSend env (Outbound.editText callback.Message.ChatID callback.Message.MessageID
      "कृपया टिकट की कीमत चुनें:" (createInlineKeyboard buttons)) w).2
  else
    match env.parseFloat data with
    | none => w
    | some amount =>
      let state : UserState :=
        { UserID := callback.From.ID, CurrentState := "awaiting_transaction_id",
          SelectedAmount := amount, TransactionID := "", UniqueCode := "",
          InvalidAttempts := 0, LastUpdated := (timeNow env w).1 }
      let r := SaveUserState env state (timeNow env w).2
      match r.1 with
      | some _ => r.2
      | none =>
        let msg :=
          "लॉटरी टिकट ₹" ++ env.fmtF0 amount
            ++ " के लिए पेमेंट करने के लिए नीचे दिए गए QR कोड का उपयोग करें: \n\n"
            ++ "पेमेंट करने के बाद, Transaction ID और पेमेंट का स्क्रीनशॉट भेजें।"
        let keyboard :=
          createInlineKeyboard [["पिछला मेनू|navigation:back", "होम|navigation:home"]]
        (apiSend env (Outbound.photo callback.Message.ChatID env.config.QRCodeLink msg keyboard)
          r.2).2

/-- The method `handleNavigation`. -/
def handleNavigation (env : Env) (callback : CallbackQuery) (action : String)
    (w : World) : World :=
  if action = "home" then handleStartCommand env callback.Message w
  else if action = "back" then
    let r := GetUserState env callback.From.ID w
    match r.1 with
    | Except.ok state =>
      if state.CurrentState = "awaiting_transaction_id" then
        handleAmountSelection env callback "start" r.2
      else r.2
    | Except.error _ => r.2
  else w

/-- The method `handleWinnerAmountSelection`. -/
def handleWinnerAmountSelection (env : Env) (callback : CallbackQuery) (data : String)
    (w : World) : World :=
  if !(isAdmin env callback.From.ID) then
    sendMessage env callback.Message.ChatID "⚠️ आप Admin नहीं हैं!" w
  else
    match env.parseFloat data with
    | none => w
    | some amount =>
      let state : UserState :=
        { UserID := callback.From.ID, CurrentState := "selecting_winner_count",
          SelectedAmount := amount, TransactionID := "", UniqueCode := "",
          InvalidAttempts := 0, LastUpdated := (timeNow env w).1 }
      let r := SaveUserState env state (timeNow env w).2
      match r.1 with
      | some _ => r.2
      | none =>
        (apiSend env (Outbound.editText callback.Message.ChatID callback.Message.MessageID
          "कितने लोग जीतेंगे? (1-10 के बीच एक नंबर भेजें)" []) r.2).2

/-- The method `handleCommand`. -/
def handleCommand (env : Env) (message : Message) (w : World) : World :=
  if message.Command = "start" then handleStartCommand env message w
  else if message.Command = "view_data" then handleViewDataCommand env message w
  else if message.Command = "select_winner" then handleSelectWinnerCommand env message w
  else if message.Command = "export_all_users" then handleExportUsersCommand env message w
  else sendMessage env message.ChatID "⚠️ अमान्य कमांड" w

/-- The method `handleMessageWithState`. -/
def handleMessageWithState (env : Env) (message : Message) (state : UserState)
    (w : World) : World :=
  if state.CurrentState = "awaiting_transaction_id" then
    handleTransactionIDSubmission env message state w
  else if state.CurrentState = "awaiting_lucky_number" then
    handleLuckyNumberSubmission env message state w
  else if state.CurrentState = "selecting_winner_count" then
    handleWinnerCountSubmission env message state w
  else handleUnexpectedInput env message state w

/-- The method `handleCallback`. -/
def handleCallback (env : Env) (callback : CallbackQuery) (w : World) : World :=
  match Split callback.Data ':' with
  | action :: data :: _ =>
    let w1 :=
      if action = "select_amount" then handleAmountSelection env callback data w
      else if action = "navigation" then handleNavigation env callback data w
      else if action = "winner_amount" then handleWinnerAmountSelection env callback data w
      else w
    (apiSend env (Outbound.callbackAnswer callback.ID) w1).2
  | _ => w

/-- The free-text branch of `handleUpdate` (`case update.Message.Text != ""`):
read the user's state, then dispatch on it. -/
def handleText (env : Env) (message : Message) (w : World) : World :=
  let r := GetUserState env message.From.ID w
  match r.1 with
  | Except.error _ =>
    sendMessage env message.ChatID "⚠️ कुछ गड़बड़ी हुई। कृपया /start कमांड से शुरू करें।" r.2
  | Except.ok state => handleMessageWithState env message state r.2

/-- The method `handleUpdate`.  A panic of `checkRateLimit` is caught by the
deferred `recover` and ends the handling of the update. -/
def handleUpdate (env : Env) (update : Update) (w : World) : World :=
  match update.Message with
  | some message =>
    let r := checkRateLimit env message.From.ID w
    match r.1 with
    | none => r.2
    | some false =>
      sendMessage env message.ChatID
        "⚠️ आप बहुत तेजी से कमांड भेज रहे हैं। कृपया कुछ देर प्रतीक्षा करें।" r.2
    | some true =>
      if message.IsCommand then handleCommand env message r.2
      else if message.Text ≠ "" then handleText env message r.2
      else r.2
  | none =>
    match update.CallbackQuery with
    | some callback => handleCallback env callback w
    | none => w

/-- The updates the `Start` loop receives, handled one after the other. -/
def run (env : Env) (updates : List Update) (w : World) : World :=
  updates.foldl (fun acc update => handleUpdate env update acc) w

/-! ## A concrete deployment, used to run the scenarios below

The library functions are tabulated on the inputs the scenarios use, with the
values the Go library gives there: `10`, `50` and `100` are the `float64` bit
patterns `0x4024000000000000`, `0x4049000000000000` and `0x4059000000000000`.
Every clock reading is ten seconds after the previous one. -/

/-- The `float64` 10. -/
def f10 : Float64 := { bits := 4621819117588971520 }

/-- The `float64` 50. -/
def f50 : Float64 := { bits := 4632233691727265792 }

/-- The `float64` 100. -/
def f100 : Float64 := { bits := 4636737291354636288 }

/-- A configuration with prices `[10, 50, 100]`, at most `maxAttempts` invalid
attempts and twenty commands per minute. -/
def scenarioConfig (maxAttempts : Int) : Config :=
  { BotName := "Lottery Bot", AdminIDs := ["1"], LotteryProof := "@proof", LotteryWin := "@win",
    QRCodeLink := "https://example.org/qr.png", Prices := [f10, f50, f100],
    MaxInvalidAttempts := maxAttempts, CommandRateLimit := 20 }

/-- An outside world in which every Drive call and every send succeeds. -/
def scenarioEnv (maxAttempts : Int) : Env :=
  { config := scenarioConfig maxAttempts
    clock := fun k => { unixNano := 1700000000000000000 + (k : Int) * 10000000000, zoneOffset := 0 }
    faults := fun _ => Fault.ok
    sendFails := fun _ => false
    parseFloat := fun s =>
      if s = "10" then some f10 else if s = "50" then some f50
      else if s = "100" then some f100 else none
    fmtF0 := fun x =>
      if x = f10 then "10" else if x = f50 then "50" else if x = f100 then "100" else ""
    fmtF2 := fun x =>
      if x = f10 then "10.00" else if x = f50 then "50.00" else if x = f100 then "100.00" else ""
    parseDate := fun _ => none
    formatTime := fun _ _ => "" }

/-- The state right after `NewDriveStorage` created the empty collections. -/
def emptyWorld : World :=
  { users := [], entries := [], transactions := [], states := [], rateLimiter := [], sent := [],
    ticks := 0, calls := 0 }

/-- A user of the bot. -/
def alice : TgUser := { ID := 7, UserName := "alice", FirstName := "Alice", LastName := "A" }

/-- The bot's own account, the sender of every message that carries buttons. -/
def botAccount : TgUser :=
  { ID := 1000, UserName := "lottery_bot", FirstName := "Lottery", LastName := "" }

/-- A free-text message of `sender` in their private chat. -/
def textMessage (sender : TgUser) (text : String) : Message :=
  { MessageID := 1, From := sender, ChatID := sender.ID, Text := text,
    IsCommand := false, Command := "", CommandArguments := "" }

/-- The update delivering a free-text message. -/
def textUpdate (sender : TgUser) (text : String) : Update :=
  { Message := some (textMessage sender text), CallbackQuery := none }

/-- The callback of `sender` pressing a button with callback data `data`. -/
def buttonPress (sender : TgUser) (data : String) : CallbackQuery :=
  { ID := "cb", From := sender,
    Message :=
      { MessageID := 2, From := botAccount, ChatID := sender.ID, Text := "",
        IsCommand := false, Command := "", CommandArguments := "" },
    Data := data }

/-- The update delivering a button press. -/
def callbackUpdate (sender : TgUser) (data : String) : Update :=
  { Message := none, CallbackQuery := some (buttonPress sender data) }

/-- The user record `/start` would store for `alice` at the first clock reading. -/
def aliceRecord : User :=
  { UserID := 7, Username := "alice", FirstName := "Alice", LastName := "A",
    JoinedDate := { unixNano := 1700000000000000000, zoneOffset := 0 }, Status := "active" }

/-- Another stored user. -/
def bobRecord : User :=
  { UserID := 8, Username := "bob", FirstName := "Bob", LastName := "B",
    JoinedDate := { unixNano := 1600000000000000000, zoneOffset := 0 }, Status := "active" }

/-- A store that already holds two users. -/
def twoUsersWorld : World := { emptyWorld with users := [bobRecord, aliceRecord] }

/-- A store in which the reference `TXN1` is recorded as a transaction of user 8
and user 7 has selected the price 50 and is asked for a reference. -/
def usedReferenceWorld : World :=
  { emptyWorld with
    transactions :=
      [{ TransactionID := "TXN1", UserID := 8, Amount := f50,
         Date := { unixNano := 1690000000000000000, zoneOffset := 0 },
         Time := { unixNano := 1690000000000000000, zoneOffset := 0 }, Status := "verified" }],
    states :=
      [{ UserID := 7, CurrentState := "awaiting_transaction_id", SelectedAmount := f50,
         TransactionID := "", UniqueCode := "", InvalidAttempts := 0,
         LastUpdated := { unixNano := 1699999990000000000, zoneOffset := 0 } }] }

/-- The purchase of the specification's scenario up to the accepted reference:
price 50 selected, reference `TXN1` submitted. -/
def purchaseStarted : List Update :=
  [callbackUpdate alice "select_amount:50", textUpdate alice "TXN1"]

/-- The whole purchase: price 50, reference `TXN1`, lucky number 57. -/
def purchaseCompleted : List Update :=
  [callbackUpdate alice "select_amount:50", textUpdate alice "TXN1", textUpdate alice "57"]

/-! ## Further concrete inputs -/

/-- The `float64` 7 (`0x401C000000000000`), which is not a configured price. -/
def f7 : Float64 := { bits := 4619567317775286272 }

/-- The scenario deployment with `strconv.ParseFloat` and `%.0f` tabulated on 7
as well. -/
def offListEnv : Env :=
  { scenarioEnv 3 with
    parseFloat := fun s => if s = "7" then some f7 else (scenarioEnv 3).parseFloat s
    fmtF0 := fun x => if x = f7 then "7" else (scenarioEnv 3).fmtF0 x }

/-- The scenario deployment with `limit` commands per minute and a clock that
reads `now` nanoseconds. -/
def rateEnv (limit now : Int) : Env :=
  { scenarioEnv 3 with
    config := { scenarioConfig 3 with CommandRateLimit := limit }
    clock := fun _ => { unixNano := now, zoneOffset := 0 } }

/-- A state in which the rate limiter saw user 7 at `lastSeen` nanoseconds. -/
def seenWorld (lastSeen : Int) : World :=
  { emptyWorld with rateLimiter := [("7", { unixNano := lastSeen, zoneOffset := 0 })] }

/-- The scenario deployment in which the Drive call number `k` (counted from 0)
fails in transfer and every other call succeeds. -/
def failingEnv (k : Nat) : Env :=
  { scenarioEnv 3 with faults := fun i => if i = k then Fault.transport else Fault.ok }

/-- The administrator of the scenario deployment (`AdminIDs = ["1"]`). -/
def adminAccount : TgUser := { ID := 1, UserName := "root", FirstName := "Root", LastName := "" }

/-- A command message `/command arguments` of `sender` in their private chat. -/
def commandMessage (sender : TgUser) (command arguments : String) : Message :=
  { MessageID := 3, From := sender, ChatID := sender.ID,
    Text := "/" ++ command ++ (if arguments = "" then "" else " " ++ arguments),
    IsCommand := true, Command := command, CommandArguments := arguments }

/-- The day 2023-11-15, as `time.Parse("2006-01-02", "2023-11-15")` returns it:
midnight UTC. -/
def theDay : Time := { unixNano := 1700006400000000000, zoneOffset := 0 }

/-- An entry of user 7 created at the instant `nanos`. -/
def entryAt (id : String) (nanos : Int) : LotteryEntry :=
  { EntryID := id, UserID := 7, TicketAmount := f50, TransactionID := "T" ++ id,
    UniqueCode := "LC" ++ id, LuckyNumber := 57,
    EntryDate := { unixNano := nanos, zoneOffset := 0 },
    EntryTime := { unixNano := nanos, zoneOffset := 0 }, Status := "active" }

/-- A transaction of user 7 dated at the instant `nanos`. -/
def transactionAt (id : String) (nanos : Int) : Transaction :=
  { TransactionID := id, UserID := 7, Amount := f50,
    Date := { unixNano := nanos, zoneOffset := 0 },
    Time := { unixNano := nanos, zoneOffset := 0 }, Status := "verified" }

/-- A store with records exactly at 2023-11-15 00:00:00 UTC, one nanosecond
later, one nanosecond before 2023-11-16 00:00:00 UTC, and exactly at it. -/
def boundaryWorld : World :=
  { emptyWorld with
    entries :=
      [entryAt "E1" 1700006400000000000, entryAt "E2" 1700006400000000001,
       entryAt "E3" 1700092799999999999, entryAt "E4" 1700092800000000000]
    transactions :=
      [transactionAt "T1" 1700006400000000000, transactionAt "T2" 1700006400000000001,
       transactionAt "T3" 1700092799999999999, transactionAt "T4" 1700092800000000000] }

/-- The `float64` 9.99 (`0x4023FAE147AE147B`). -/
def f999 : Float64 := { bits := 4621813488089437307 }

/-- The scenario deployment with prices `[9.99, 50, 100]`; `%.0f` renders 9.99
as `10` and 9.99 with two decimals as `9.99`. -/
def centsEnv : Env :=
  { scenarioEnv 3 with
    config := { scenarioConfig 3 with Prices := [f999, f50, f100] }
    fmtF0 := fun x => if x = f999 then "10" else (scenarioEnv 3).fmtF0 x
    fmtF2 := fun x => if x = f999 then "9.99" else (scenarioEnv 3).fmtF2 x }

/-! ## Basic facts about the outside-world primitives -/

@[simp] theorem timeNow_fst (env : Env) (w : World) : (timeNow env w).1 = env.clock w.ticks := rfl

@[simp] theorem timeNow_snd (env : Env) (w : World) :
    (timeNow env w).2 = { w with ticks := w.ticks + 1 } := rfl

@[simp] theorem apiSend_snd (env : Env) (r : Outbound) (w : World) :
    (apiSend env r w).2 = { w with sent := w.sent ++ [r] } := rfl

@[simp] theorem sendMessage_eq (env : Env) (c : Int) (t : String) (w : World) :
    sendMessage env c t w = { w with sent := w.sent ++ [Outbound.message c t [] ""] } := rfl

/-- Whatever its outcome, `readFile` only advances the call counter. -/
@[simp] theorem readFile_snd (env : Env) (f : String) (w : World) :
    (readFile env f w).2 = { w with calls := w.calls + 1 } := by
  unfold readFile; cases env.faults w.calls <;> rfl

/-- Whatever its outcome, `writeFile` only advances the call counter. -/
@[simp] theorem writeFile_snd (env : Env) (f : String) (w : World) :
    (writeFile env f w).2 = { w with calls := w.calls + 1 } := by
  unfold writeFile; cases env.faults w.calls <;> rfl

/-- The method `readFile` returns no error exactly when the remote call succeeds. -/
theorem readFile_fst_eq_none (env : Env) (f : String) (w : World) :
    (readFile env f w).1 = none ↔ env.faults w.calls = Fault.ok := by
  unfold readFile; cases env.faults w.calls <;> simp

/-- The method `writeFile` returns no error exactly when the remote call succeeds. -/
theorem writeFile_fst_eq_none (env : Env) (f : String) (w : World) :
    (writeFile env f w).1 = none ↔ env.faults w.calls = Fault.ok := by
  unfold writeFile; cases env.faults w.calls <;> simp

/-! ## Frame facts: which collections each function leaves alone -/

/-- The collections `SaveUser` does not write. -/
@[simp] theorem SaveUser_frame (env : Env) (u : User) (w : World) :
    (SaveUser env u w).2.entries = w.entries ∧
      (SaveUser env u w).2.transactions = w.transactions ∧
      (SaveUser env u w).2.states = w.states := by
  simp only [SaveUser]
  repeat' split
  all_goals simp

/-- The collections `GetUser` does not write. -/
@[simp] theorem GetUser_frame (env : Env) (userID : Int) (w : World) :
    (GetUser env userID w).2.users = w.users ∧
      (GetUser env userID w).2.entries = w.entries ∧
      (GetUser env userID w).2.transactions = w.transactions ∧
      (GetUser env userID w).2.states = w.states := by
  simp only [GetUser]
  repeat' split
  all_goals simp

/-- The collections `GetAllUsers` does not write. -/
@[simp] theorem GetAllUsers_frame (env : Env) (a b : Time) (w : World) :
    (GetAllUsers env a b w).2.users = w.users ∧
      (GetAllUsers env a b w).2.entries = w.entries ∧
      (GetAllUsers env a b w).2.transactions = w.transactions ∧
      (GetAllUsers env a b w).2.states = w.states := by
  simp only [GetAllUsers]
  repeat' split
  all_goals simp

/-- The collections `SaveTransaction` does not write. -/
@[simp] theorem SaveTransaction_frame (env : Env) (t : Transaction) (w : World) :
    (SaveTransaction env t w).2.users = w.users ∧
      (SaveTransaction env t w).2.entries = w.entries ∧
      (SaveTransaction env t w).2.states = w.states := by
  simp only [SaveTransaction]
  repeat' split
  all_goals simp

/-- The collections `GetTransaction` does not write. -/
@[simp] theorem GetTransaction_frame (env : Env) (txnID : String) (w : World) :
    (GetTransaction env txnID w).2.users = w.users ∧
      (GetTransaction env txnID w).2.entries = w.entries ∧
      (GetTransaction env txnID w).2.transactions = w.transactions ∧
      (GetTransaction env txnID w).2.states = w.states := by
  simp only [GetTransaction]
  repeat' split
  all_goals simp

/-- The collections `GetTransactionsByDate` does not write. -/
@[simp] theorem GetTransactionsByDate_frame (env : Env) (d : Time) (w : World) :
    (GetTransactionsByDate env d w).2.users = w.users ∧
      (GetTransactionsByDate env d w).2.entries = w.entries ∧
      (GetTransactionsByDate env d w).2.transactions = w.transactions ∧
      (GetTransactionsByDate env d w).2.states = w.states := by
  simp only [GetTransactionsByDate]
  repeat' split
  all_goals simp

/-- The collections `IsTransactionUsed` does not write. -/
@[simp] theorem IsTransactionUsed_frame (env : Env) (txnID : String) (w : World) :
    (IsTransactionUsed env txnID w).2.users = w.users ∧
      (IsTransactionUsed env txnID w).2.entries = w.entries ∧
      (IsTransactionUsed env txnID w).2.transactions = w.transactions ∧
      (IsTransactionUsed env txnID w).2.states = w.states := by
  simp only [IsTransactionUsed]
  repeat' split
  all_goals simp

/-- The collections `SaveLotteryEntry` does not write. -/
@[simp] theorem SaveLotteryEntry_frame (env : Env) (e : LotteryEntry) (w : World) :
    (SaveLotteryEntry env e w).2.users = w.users ∧
      (SaveLotteryEntry env e w).2.transactions = w.transactions ∧
      (SaveLotteryEntry env e w).2.states = w.states := by
  simp only [SaveLotteryEntry]
  repeat' split
  all_goals simp

/-- The collections `GetEntriesByDate` does not write. -/
@[simp] theorem GetEntriesByDate_frame (env : Env) (d : Time) (w : World) :
    (GetEntriesByDate env d w).2.users = w.users ∧
      (GetEntriesByDate env d w).2.entries = w.entries ∧
      (GetEntriesByDate env d w).2.transactions = w.transactions ∧
      (GetEntriesByDate env d w).2.states = w.states := by
  simp only [GetEntriesByDate]
  repeat' split
  all_goals simp

/-- The collections `SaveUserState` does not write. -/
@[simp] theorem SaveUserState_frame (env : Env) (s : UserState) (w : World) :
    (SaveUserState env s w).2.users = w.users ∧
      (SaveUserState env s w).2.entries = w.entries ∧
      (SaveUserState env s w).2.transactions = w.transactions := by
  simp only [SaveUserState]
  repeat' split
  all_goals simp

/-- The collections `GetUserState` does not write. -/
@[simp] theorem GetUserState_frame (env : Env) (userID : Int) (w : World) :
    (GetUserState env userID w).2.users = w.users ∧
      (GetUserState env userID w).2.entries = w.entries ∧
      (GetUserState env userID w).2.transactions = w.transactions ∧
      (GetUserState env userID w).2.states = w.states := by
  simp only [GetUserState]
  repeat' split
  all_goals simp

/-- The collections `DeleteUserState` does not write. -/
@[simp] theorem DeleteUserState_frame (env : Env) (userID : Int) (w : World) :
    (DeleteUserState env userID w).2.users = w.users ∧
      (DeleteUserState env userID w).2.entries = w.entries ∧
      (DeleteUserState env userID w).2.transactions = w.transactions := by
  simp only [DeleteUserState]
  repeat' split
  all_goals simp

/-- The collections `checkRateLimit` does not write. -/
@[simp] theorem checkRateLimit_frame (env : Env) (userID : Int) (w : World) :
    (checkRateLimit env userID w).2.users = w.users ∧
      (checkRateLimit env userID w).2.entries = w.entries ∧
      (checkRateLimit env userID w).2.transactions = w.transactions ∧
      (checkRateLimit env userID w).2.states = w.states := by
  simp only [checkRateLimit]
  repeat' split
  all_goals simp

/-- The collections `handleStartCommand` does not write. -/
@[simp] theorem handleStartCommand_frame (env : Env) (m : Message) (w : World) :
    (handleStartCommand env m w).entries = w.entries ∧
      (handleStartCommand env m w).transactions = w.transactions ∧
      (handleStartCommand env m w).states = w.states := by
  simp [handleStartCommand]

/-- The collections `handleTransactionIDSubmission` does not write. -/
@[simp] theorem handleTransactionIDSubmission_frame (env : Env) (m : Message) (s : UserState) (w : World) :
    (handleTransactionIDSubmission env m s w).users = w.users ∧
      (handleTransactionIDSubmission env m s w).entries = w.entries ∧
      (handleTransactionIDSubmission env m s w).transactions = w.transactions := by
  simp only [handleTransactionIDSubmission]
  repeat' split
  all_goals simp

/-- The collections `handleLuckyNumberSubmission` does not write. -/
@[simp] theorem handleLuckyNumberSubmission_frame (env : Env) (m : Message) (s : UserState) (w : World) :
    (handleLuckyNumberSubmission env m s w).users = w.users ∧
      (handleLuckyNumberSubmission env m s w).transactions = w.transactions := by
  simp only [handleLuckyNumberSubmission]
  repeat' split
  all_goals simp

/-- The collections `handleWinnerCountSubmission` does not write. -/
@[simp] theorem handleWinnerCountSubmission_frame (env : Env) (m : Message) (s : UserState) (w : World) :
    (handleWinnerCountSubmission env m s w).users = w.users ∧
      (handleWinnerCountSubmission env m s w).entries = w.entries ∧
      (handleWinnerCountSubmission env m s w).transactions = w.transactions := by
  simp only [handleWinnerCountSubmission]
  repeat' split
  all_goals simp

/-- The collections `handleUnexpectedInput` does not write. -/
@[simp] theorem handleUnexpectedInput_frame (env : Env) (m : Message) (s : UserState) (w : World) :
    (handleUnexpectedInput env m s w).entries = w.entries ∧
      (handleUnexpectedInput env m s w).transactions = w.transactions := by
  simp only [handleUnexpectedInput]
  repeat' split
  all_goals simp

/-- The collections `sendViewDataHelp` does not write. -/
@[simp] theorem sendViewDataHelp_frame (env : Env) (c : Int) (w : World) :
    (sendViewDataHelp env c w).users = w.users ∧
      (sendViewDataHelp env c w).entries = w.entries ∧
      (sendViewDataHelp env c w).transactions = w.transactions ∧
      (sendViewDataHelp env c w).states = w.states := by
  simp [sendViewDataHelp]

/-- The collections `handleViewUserData` does not write. -/
@[simp] theorem handleViewUserData_frame (env : Env) (c : Int) (s : String) (w : World) :
    (handleViewUserData env c s w).users = w.users ∧
      (handleViewUserData env c s w).entries = w.entries ∧
      (handleViewUserData env c s w).transactions = w.transactions ∧
      (handleViewUserData env c s w).states = w.states := by
  simp [handleViewUserData]

/-- The collections `handleViewTransactionData` does not write. -/
@[simp] theorem handleViewTransactionData_frame (env : Env) (c : Int) (s : String) (w : World) :
    (handleViewTransactionData env c s w).users = w.users ∧
      (handleViewTransactionData env c s w).entries = w.entries ∧
      (handleViewTransactionData env c s w).transactions = w.transactions ∧
      (handleViewTransactionData env c s w).states = w.states := by
  simp only [handleViewTransactionData]
  repeat' split
  all_goals simp

/-- The collections `handleViewDateData` does not write. -/
@[simp] theorem handleViewDateData_frame (env : Env) (c : Int) (s : String) (w : World) :
    (handleViewDateData env c s w).users = w.users ∧
      (handleViewDateData env c s w).entries = w.entries ∧
      (handleViewDateData env c s w).transactions = w.transactions ∧
      (handleViewDateData env c s w).states = w.states := by
  simp only [handleViewDateData]
  repeat' split
  all_goals simp

/-- The collections `handleViewTransactionsByDate` does not write. -/
@[simp] theorem handleViewTransactionsByDate_frame (env : Env) (c : Int) (s : String) (w : World) :
    (handleViewTransactionsByDate env c s w).users = w.users ∧
      (handleViewTransactionsByDate env c s w).entries = w.entries ∧
      (handleViewTransactionsByDate env c s w).transactions = w.transactions ∧
      (handleViewTransactionsByDate env c s w).states = w.states := by
  simp only [handleViewTransactionsByDate]
  repeat' split
  all_goals simp

/-- The collections `handleViewDataCommand` does not write. -/
@[simp] theorem handleViewDataCommand_frame (env : Env) (m : Message) (w : World) :
    (handleViewDataCommand env m w).users = w.users ∧
      (handleViewDataCommand env m w).entries = w.entries ∧
      (handleViewDataCommand env m w).transactions = w.transactions ∧
      (handleViewDataCommand env m w).states = w.states := by
  simp only [handleViewDataCommand]
  repeat' split
  all_goals simp

/-- The collections `handleSelectWinnerCommand` does not write. -/
@[simp] theorem handleSelectWinnerCommand_frame (env : Env) (m : Message) (w : World) :
    (handleSelectWinnerCommand env m w).users = w.users ∧
      (handleSelectWinnerCommand env m w).entries = w.entries ∧
      (handleSelectWinnerCommand env m w).transactions = w.transactions ∧
      (handleSelectWinnerCommand env m w).states = w.states := by
  simp only [handleSelectWinnerCommand]
  repeat' split
  all_goals simp

/-- The collections `handleExportUsersCommand` does not write. -/
@[simp] theorem handleExportUsersCommand_frame (env : Env) (m : Message) (w : World) :
    (handleExportUsersCommand env m w).users = w.users ∧
      (handleExportUsersCommand env m w).entries = w.entries ∧
      (handleExportUsersCommand env m w).transactions = w.transactions ∧
      (handleExportUsersCommand env m w).states = w.states := by
  simp only [handleExportUsersCommand]
  repeat' split
  all_goals simp

/-- The collections `handleAmountSelection` does not write. -/
@[simp] theorem handleAmountSelection_frame (env : Env) (cb : CallbackQuery) (d : String) (w : World) :
    (handleAmountSelection env cb d w).users = w.users ∧
      (handleAmountSelection env cb d w).entries = w.entries ∧
      (handleAmountSelection env cb d w).transactions = w.transactions := by
  simp only [handleAmountSelection]
  repeat' split
  all_goals simp

/-- The collections `handleNavigation` does not write. -/
@[simp] theorem handleNavigation_frame (env : Env) (cb : CallbackQuery) (d : String) (w : World) :
    (handleNavigation env cb d w).entries = w.entries ∧
      (handleNavigation env cb d w).transactions = w.transactions := by
  simp only [handleNavigation]
  repeat' split
  all_goals simp

/-- The collections `handleWinnerAmountSelection` does not write. -/
@[simp] theorem handleWinnerAmountSelection_frame (env : Env) (cb : CallbackQuery) (d : String) (w : World) :
    (handleWinnerAmountSelection env cb d w).users = w.users ∧
      (handleWinnerAmountSelection env cb d w).entries = w.entries ∧
      (handleWinnerAmountSelection env cb d w).transactions = w.transactions := by
  simp only [handleWinnerAmountSelection]
  repeat' split
  all_goals simp

/-- The collections `handleCommand` does not write. -/
@[simp] theorem handleCommand_frame (env : Env) (m : Message) (w : World) :
    (handleCommand env m w).entries = w.entries ∧
      (handleCommand env m w).transactions = w.transactions ∧
      (handleCommand env m w).states = w.states := by
  simp only [handleCommand]
  repeat' split
  all_goals simp

/-- The collections `handleMessageWithState` does not write. -/
@[simp] theorem handleMessageWithState_frame (env : Env) (m : Message) (s : UserState) (w : World) :
    (handleMessageWithState env m s w).transactions = w.transactions := by
  simp only [handleMessageWithState]
  repeat' split
  all_goals simp

/-- The collections `handleCallback` does not write. -/
@[simp] theorem handleCallback_frame (env : Env) (cb : CallbackQuery) (w : World) :
    (handleCallback env cb w).entries = w.entries ∧
      (handleCallback env cb w).transactions = w.transactions := by
  simp only [handleCallback]
  repeat' split
  all_goals simp

/-- The collections `handleText` does not write. -/
@[simp] theorem handleText_frame (env : Env) (m : Message) (w : World) :
    (handleText env m w).transactions = w.transactions := by
  simp only [handleText]
  repeat' split
  all_goals simp

/-- The collections `handleUpdate` does not write. -/
@[simp] theorem handleUpdate_frame (env : Env) (u : Update) (w : World) :
    (handleUpdate env u w).transactions = w.transactions := by
  simp only [handleUpdate]
  repeat' split
  all_goals simp

/-! ## The upsert, lookup and delete loops -/

theorem SaveUser_update_nil (u : User) : SaveUser.update [] u = [u] := rfl

theorem SaveUser_update_cons_eq (x u : User) (xs : List User) (h : x.UserID = u.UserID) :
    SaveUser.update (x :: xs) u = u :: xs := by
  simp [SaveUser.update, SaveUser.loop, h]

theorem SaveUser_update_cons_ne (x u : User) (xs : List User) (h : x.UserID ≠ u.UserID) :
    SaveUser.update (x :: xs) u = x :: SaveUser.update xs u := by
  simp only [SaveUser.update, SaveUser.loop, h, if_false]
  split <;> simp

theorem SaveUserState_update_nil (s : UserState) : SaveUserState.update [] s = [s] := rfl

theorem SaveUserState_update_cons_eq (x s : UserState) (xs : List UserState)
    (h : x.UserID = s.UserID) : SaveUserState.update (x :: xs) s = s :: xs := by
  simp [SaveUserState.update, SaveUserState.loop, h]

theorem SaveUserState_update_cons_ne (x s : UserState) (xs : List UserState)
    (h : x.UserID ≠ s.UserID) :
    SaveUserState.update (x :: xs) s = x :: SaveUserState.update xs s := by
  simp only [SaveUserState.update, SaveUserState.loop, h, if_false]
  split <;> simp

/-- After the upsert the first record with the saved ID is the saved record. -/
theorem GetUser_loop_update (users : List User) (u : User) :
    GetUser.loop u.UserID (SaveUser.update users u) = some u := by
  induction users with
  | nil => simp [SaveUser_update_nil, GetUser.loop]
  | cons x xs ih =>
    by_cases h : x.UserID = u.UserID
    · simp [SaveUser_update_cons_eq x u xs h, GetUser.loop]
    · simp [SaveUser_update_cons_ne x u xs h, GetUser.loop, h, ih]

/-- The upsert keeps the length when the ID is already present. -/
theorem SaveUser_update_length_of_found (users : List User) (u : User) (v : User)
    (h : GetUser.loop u.UserID users = some v) :
    (SaveUser.update users u).length = users.length := by
  induction users with
  | nil => simp [GetUser.loop] at h
  | cons x xs ih =>
    by_cases hx : x.UserID = u.UserID
    · simp [SaveUser_update_cons_eq x u xs hx]
    · simp only [GetUser.loop, hx, if_false] at h
      simp [SaveUser_update_cons_ne x u xs hx, ih h]

/-- The upsert leaves every record with another ID where it was. -/
theorem SaveUser_update_getElem_ne (users : List User) (u x : User) (i : Nat)
    (hi : users[i]? = some x) (hx : x.UserID ≠ u.UserID) :
    (SaveUser.update users u)[i]? = some x := by
  induction users generalizing i with
  | nil => simp at hi
  | cons y ys ih =>
    by_cases hy : y.UserID = u.UserID
    · rw [SaveUser_update_cons_eq y u ys hy]
      cases i with
      | zero =>
        simp at hi
        subst hi
        exact absurd hy hx
      | succ j => simpa using hi
    · rw [SaveUser_update_cons_ne y u ys hy]
      cases i with
      | zero => simpa using hi
      | succ j =>
        simp at hi
        simpa using ih j hi

/-- With pairwise distinct IDs, after the upsert the only record carrying the
saved ID is the saved record. -/
theorem SaveUser_update_unique (users : List User) (u : User)
    (hnd : (users.map User.UserID).Nodup) :
    ∀ x ∈ SaveUser.update users u, x.UserID = u.UserID → x = u := by
  induction users with
  | nil =>
    intro x hx _
    simpa [SaveUser_update_nil] using hx
  | cons y ys ih =>
    simp only [List.map_cons, List.nodup_cons, List.mem_map, not_exists, not_and] at hnd
    intro x hx hxu
    by_cases hy : y.UserID = u.UserID
    · rw [SaveUser_update_cons_eq y u ys hy] at hx
      rcases List.mem_cons.mp hx with h | h
      · exact h
      · exact absurd (hxu.trans hy.symm) (hnd.1 x h)
    · rw [SaveUser_update_cons_ne y u ys hy] at hx
      rcases List.mem_cons.mp hx with h | h
      · subst h
        exact absurd hxu hy
      · exact ih hnd.2 x h hxu

/-- A successful `SaveUser` stores the upserted collection. -/
theorem SaveUser_ok_users (env : Env) (u : User) (w : World) (h : (SaveUser env u w).1 = none) :
    (SaveUser env u w).2.users = SaveUser.update w.users u := by
  revert h
  simp only [SaveUser]
  repeat' split
  all_goals simp

/-- With the Drive reachable, `SaveUser` succeeds. -/
theorem SaveUser_fst_of_ok (env : Env) (u : User) (w : World)
    (h1 : env.faults w.calls = Fault.ok) (h2 : env.faults (w.calls + 1) = Fault.ok) :
    (SaveUser env u w).1 = none := by
  have e1 := (readFile_fst_eq_none env usersFile w).mpr h1
  have e2 := (writeFile_fst_eq_none env usersFile { w with calls := w.calls + 1 }).mpr h2
  simp [SaveUser, e1, e2]

/-- A record of the upserted collection is an old record or the saved one. -/
theorem SaveUser_update_mem (users : List User) (u x : User)
    (hx : x ∈ SaveUser.update users u) : x ∈ users ∨ x = u := by
  induction users with
  | nil => right; simpa [SaveUser_update_nil] using hx
  | cons y ys ih =>
    by_cases hy : y.UserID = u.UserID
    · rw [SaveUser_update_cons_eq y u ys hy] at hx
      rcases List.mem_cons.mp hx with h | h
      · exact Or.inr h
      · exact Or.inl (List.mem_cons_of_mem _ h)
    · rw [SaveUser_update_cons_ne y u ys hy] at hx
      rcases List.mem_cons.mp hx with h | h
      · exact Or.inl (h ▸ List.mem_cons_self _ _)
      · rcases ih h with h2 | h2
        · exact Or.inl (List.mem_cons_of_mem _ h2)
        · exact Or.inr h2

/-- The upsert keeps user IDs pairwise distinct. -/
theorem SaveUser_update_nodup (users : List User) (u : User)
    (hnd : (users.map User.UserID).Nodup) :
    ((SaveUser.update users u).map User.UserID).Nodup := by
  induction users with
  | nil => simp [SaveUser_update_nil]
  | cons y ys ih =>
    simp only [List.map_cons, List.nodup_cons, List.mem_map, not_exists, not_and] at hnd
    by_cases hy : y.UserID = u.UserID
    · rw [SaveUser_update_cons_eq y u ys hy]
      simp only [List.map_cons, List.nodup_cons, List.mem_map, not_exists, not_and]
      exact ⟨fun x hx hxu => hnd.1 x hx (hxu.trans hy.symm), hnd.2⟩
    · rw [SaveUser_update_cons_ne y u ys hy]
      simp only [List.map_cons, List.nodup_cons, List.mem_map, not_exists, not_and]
      refine ⟨fun x hx hxy => ?_, ih hnd.2⟩
      rcases SaveUser_update_mem ys u x hx with h | h
      · exact hnd.1 x h hxy
      · subst h
        exact hy hxy.symm

/-- A record with another ID found after the upsert was there before, at the
same place. -/
theorem SaveUser_update_getElem_ne_rev (users : List User) (u x : User) (i : Nat)
    (hi : (SaveUser.update users u)[i]? = some x) (hx : x.UserID ≠ u.UserID) :
    users[i]? = some x := by
  induction users generalizing i with
  | nil =>
    rw [SaveUser_update_nil] at hi
    cases i with
    | zero =>
      simp at hi
      subst hi
      exact absurd rfl hx
    | succ j => simp at hi
  | cons y ys ih =>
    by_cases hy : y.UserID = u.UserID
    · rw [SaveUser_update_cons_eq y u ys hy] at hi
      cases i with
      | zero =>
        simp at hi
        subst hi
        exact absurd rfl hx
      | succ j => simpa using hi
    · rw [SaveUser_update_cons_ne y u ys hy] at hi
      cases i with
      | zero => simpa using hi
      | succ j =>
        simp at hi
        simpa using ih j hi

/-! ### User states -/

theorem GetUserState_loop_eq_none (uid : Int) (states : List UserState) :
    GetUserState.loop uid states = none ↔ ∀ s ∈ states, s.UserID ≠ uid := by
  induction states with
  | nil => simp [GetUserState.loop]
  | cons x xs ih =>
    by_cases hx : x.UserID = uid
    · simp [GetUserState.loop, hx]
    · simp [GetUserState.loop, hx, ih]

/-- The record found by the lookup carries the ID looked for. -/
theorem GetUserState_loop_some (uid : Int) (states : List UserState) (st : UserState)
    (h : GetUserState.loop uid states = some st) : st ∈ states ∧ st.UserID = uid := by
  induction states with
  | nil => simp [GetUserState.loop] at h
  | cons x xs ih =>
    by_cases hx : x.UserID = uid
    · simp only [GetUserState.loop, hx, if_true, Option.some.injEq] at h
      subst h
      exact ⟨List.mem_cons_self _ _, hx⟩
    · simp only [GetUserState.loop, hx, if_false] at h
      exact ⟨List.mem_cons_of_mem _ (ih h).1, (ih h).2⟩

/-- After the upsert the first record of the user is the saved state. -/
theorem GetUserState_loop_update (states : List UserState) (s : UserState) :
    GetUserState.loop s.UserID (SaveUserState.update states s) = some s := by
  induction states with
  | nil => simp [SaveUserState_update_nil, GetUserState.loop]
  | cons x xs ih =>
    by_cases h : x.UserID = s.UserID
    · simp [SaveUserState_update_cons_eq x s xs h, GetUserState.loop]
    · simp [SaveUserState_update_cons_ne x s xs h, GetUserState.loop, h, ih]

/-- The upsert of a user without a record appends the state. -/
theorem SaveUserState_update_of_absent (states : List UserState) (s : UserState)
    (h : GetUserState.loop s.UserID states = none) :
    SaveUserState.update states s = states ++ [s] := by
  induction states with
  | nil => rfl
  | cons x xs ih =>
    by_cases hx : x.UserID = s.UserID
    · simp [GetUserState.loop, hx] at h
    · simp only [GetUserState.loop, hx, if_false] at h
      simp [SaveUserState_update_cons_ne x s xs hx, ih h]

/-- The upsert of a user whose only record is the last one replaces it. -/
theorem SaveUserState_update_append (states : List UserState) (s t : UserState)
    (h : GetUserState.loop s.UserID states = none) (hst : t.UserID = s.UserID) :
    SaveUserState.update (states ++ [t]) s = states ++ [s] := by
  induction states with
  | nil => simp [SaveUserState_update_cons_eq t s [] hst]
  | cons x xs ih =>
    by_cases hx : x.UserID = s.UserID
    · simp [GetUserState.loop, hx] at h
    · simp only [GetUserState.loop, hx, if_false] at h
      simp [SaveUserState_update_cons_ne x s (xs ++ [t]) hx, ih h]

/-- Deleting the state of a user without a record changes nothing. -/
theorem DeleteUserState_loop_of_absent (uid : Int) (states : List UserState)
    (h : GetUserState.loop uid states = none) : DeleteUserState.loop uid states = states := by
  induction states with
  | nil => rfl
  | cons x xs ih =>
    by_cases hx : x.UserID = uid
    · simp [GetUserState.loop, hx] at h
    · simp only [GetUserState.loop, hx, if_false] at h
      simp [DeleteUserState.loop, hx, ih h]

/-- Deleting the state of a user whose only record is the last one removes it. -/
theorem DeleteUserState_loop_append (uid : Int) (states : List UserState) (t : UserState)
    (h : GetUserState.loop uid states = none) (ht : t.UserID = uid) :
    DeleteUserState.loop uid (states ++ [t]) = states := by
  induction states with
  | nil => simp [DeleteUserState.loop, ht]
  | cons x xs ih =>
    by_cases hx : x.UserID = uid
    · simp [GetUserState.loop, hx] at h
    · simp only [GetUserState.loop, hx, if_false] at h
      simp [DeleteUserState.loop, hx, ih h]

/-- With at most one record per user, the deleted user has no record left. -/
theorem GetUserState_loop_delete (uid : Int) (states : List UserState)
    (hnd : (states.map UserState.UserID).Nodup) :
    GetUserState.loop uid (DeleteUserState.loop uid states) = none := by
  induction states with
  | nil => rfl
  | cons x xs ih =>
    simp only [List.map_cons, List.nodup_cons, List.mem_map, not_exists, not_and] at hnd
    by_cases hx : x.UserID = uid
    · simp only [DeleteUserState.loop, hx, if_true]
      rw [GetUserState_loop_eq_none]
      intro s hs hsu
      exact hnd.1 s hs (hsu.trans hx.symm)
    · simp [DeleteUserState.loop, GetUserState.loop, hx, ih hnd.2]

/-- A successful `SaveUserState` stores the upserted collection. -/
theorem SaveUserState_ok_states (env : Env) (s : UserState) (w : World)
    (h1 : env.faults w.calls = Fault.ok) (h2 : env.faults (w.calls + 1) = Fault.ok) :
    SaveUserState env s w
      = (none, { w with calls := w.calls + 1 + 1, states := SaveUserState.update w.states s }) := by
  have e1 := (readFile_fst_eq_none env statesFile w).mpr h1
  have e2 := (writeFile_fst_eq_none env statesFile { w with calls := w.calls + 1 }).mpr h2
  simp [SaveUserState, e1, e2]

/-- A successful `DeleteUserState` stores the collection without the record. -/
theorem DeleteUserState_ok_states (env : Env) (uid : Int) (w : World)
    (h1 : env.faults w.calls = Fault.ok) (h2 : env.faults (w.calls + 1) = Fault.ok) :
    DeleteUserState env uid w
      = (none, { w with calls := w.calls + 1 + 1,
                        states := DeleteUserState.loop uid w.states }) := by
  have e1 := (readFile_fst_eq_none env statesFile w).mpr h1
  have e2 := (writeFile_fst_eq_none env statesFile { w with calls := w.calls + 1 }).mpr h2
  simp [DeleteUserState, e1, e2]

/-- A successful `SaveLotteryEntry` appends the entry. -/
theorem SaveLotteryEntry_ok (env : Env) (e : LotteryEntry) (w : World)
    (h1 : env.faults w.calls = Fault.ok) (h2 : env.faults (w.calls + 1) = Fault.ok) :
    SaveLotteryEntry env e w
      = (none, { w with calls := w.calls + 1 + 1, entries := w.entries ++ [e] }) := by
  have e1 := (readFile_fst_eq_none env entriesFile w).mpr h1
  have e2 := (writeFile_fst_eq_none env entriesFile { w with calls := w.calls + 1 }).mpr h2
  simp [SaveLotteryEntry, e1, e2]

/-- A successful `SaveUser` in full. -/
theorem SaveUser_ok (env : Env) (u : User) (w : World)
    (h1 : env.faults w.calls = Fault.ok) (h2 : env.faults (w.calls + 1) = Fault.ok) :
    SaveUser env u w
      = (none, { w with calls := w.calls + 1 + 1, users := SaveUser.update w.users u }) := by
  have e1 := (readFile_fst_eq_none env usersFile w).mpr h1
  have e2 := (writeFile_fst_eq_none env usersFile { w with calls := w.calls + 1 }).mpr h2
  simp [SaveUser, e1, e2]

/-- A successful `GetUserState` of a user with a record. -/
theorem GetUserState_ok_found (env : Env) (uid : Int) (w : World) (st : UserState)
    (h1 : env.faults w.calls = Fault.ok) (h : GetUserState.loop uid w.states = some st) :
    GetUserState env uid w = (Except.ok st, { w with calls := w.calls + 1 }) := by
  have e1 := (readFile_fst_eq_none env statesFile w).mpr h1
  simp [GetUserState, e1, h]

/-- A successful `GetUserState` of a user without a record. -/
theorem GetUserState_ok_absent (env : Env) (uid : Int) (w : World)
    (h1 : env.faults w.calls = Fault.ok) (h : GetUserState.loop uid w.states = none) :
    GetUserState env uid w
      = (Except.ok { UserID := uid, CurrentState := "", SelectedAmount := Float64.zero,
                     TransactionID := "", UniqueCode := "", InvalidAttempts := 0,
                     LastUpdated := env.clock w.ticks },
         { w with calls := w.calls + 1, ticks := w.ticks + 1 }) := by
  have e1 := (readFile_fst_eq_none env statesFile w).mpr h1
  simp [GetUserState, e1, h]

/-! ## The conversation state machine -/

/-- What `GetUserState` returns for a user with a record, when it returns. -/
theorem GetUserState_fst_found (env : Env) (uid : Int) (w : World) (st state : UserState)
    (h : GetUserState.loop uid w.states = some st)
    (hr : (GetUserState env uid w).1 = Except.ok state) : state = st := by
  revert hr
  simp only [GetUserState]
  split
  · simp
  · simp [h]
    exact fun e => e.symm

/-- What `IsTransactionUsed` answers, when it answers. -/
theorem IsTransactionUsed_fst (env : Env) (txnID : String) (w : World) (used : Bool)
    (hr : (IsTransactionUsed env txnID w).1 = Except.ok used) :
    used = w.transactions.any (fun txn => txn.TransactionID = txnID) := by
  revert hr
  simp only [IsTransactionUsed]
  split
  · simp
  · simp
    exact fun e => e.symm

/-- A reference present in the transactions collection is rejected: the
submission writes neither an entry nor a state. -/
theorem handleTransactionIDSubmission_used (env : Env) (m : Message) (st : UserState)
    (w : World) (t : Transaction) (ht : t ∈ w.transactions) (hid : t.TransactionID = m.Text) :
    (handleTransactionIDSubmission env m st w).entries = w.entries ∧
    (handleTransactionIDSubmission env m st w).states = w.states := by
  simp only [handleTransactionIDSubmission]
  split
  · simp
  · rename_i used hused
    have hu := IsTransactionUsed_fst env m.Text w used hused
    have : used = true := by
      rw [hu, List.any_eq_true]
      exact ⟨t, ht, by simp [hid]⟩
    simp [this]

/-- The free-text branch for a user waiting for a reference, on a used
reference. -/
theorem handleText_used (env : Env) (m : Message) (st : UserState) (w : World) (t : Transaction)
    (hst : GetUserState.loop m.From.ID w.states = some st)
    (hlabel : st.CurrentState = "awaiting_transaction_id")
    (ht : t ∈ w.transactions) (hid : t.TransactionID = m.Text) :
    (handleText env m w).entries = w.entries ∧ (handleText env m w).states = w.states := by
  simp only [handleText]
  split
  · simp
  · rename_i state hstate
    have hs := GetUserState_fst_found env m.From.ID w st state hst hstate
    subst hs
    have hu := handleTransactionIDSubmission_used env m state (GetUserState env m.From.ID w).2 t
      (by simpa using ht) hid
    simpa [handleMessageWithState, hlabel] using hu

/-- The empty text is not a number. -/
theorem Atoi_ne_empty (s : String) (n : Int) (h : Atoi s = some n) : s ≠ "" := by
  intro hs
  subst hs
  simp [Atoi] at h

/-- An accepted lucky number, with the Drive reachable: the entry built from the
state is appended and the first state record of the sender is dropped. -/
theorem handleLuckyNumberSubmission_accepted (env : Env) (m : Message) (st : UserState)
    (w : World) (n : Int) (hok : ∀ k, env.faults k = Fault.ok)
    (hn : Atoi m.Text = some n) (h1 : 1 ≤ n) (h100 : n ≤ 100) :
    (handleLuckyNumberSubmission env m st w).entries
      = w.entries ++
        [{ EntryID := "ENTRY" ++ FormatInt (env.clock w.ticks).unixNano, UserID := m.From.ID,
           TicketAmount := st.SelectedAmount, TransactionID := st.TransactionID,
           UniqueCode := st.UniqueCode, LuckyNumber := n,
           EntryDate := env.clock (w.ticks + 1), EntryTime := env.clock (w.ticks + 1 + 1),
           Status := "active" }] ∧
    (handleLuckyNumberSubmission env m st w).states
      = DeleteUserState.loop m.From.ID w.states := by
  have hr : ¬ (n < 1 ∨ n > 100) := by omega
  simp [handleLuckyNumberSubmission, hn, hr, SaveLotteryEntry_ok env _ _ (hok _) (hok _),
    DeleteUserState_ok_states env _ _ (hok _) (hok _)]

/-- The free-text branch for a user waiting for a lucky number, on a number
from 1 to 100, with the Drive reachable. -/
theorem handleText_lucky (env : Env) (m : Message) (st : UserState) (w : World) (n : Int)
    (hok : ∀ k, env.faults k = Fault.ok)
    (hst : GetUserState.loop m.From.ID w.states = some st)
    (hlabel : st.CurrentState = "awaiting_lucky_number")
    (hn : Atoi m.Text = some n) (h1 : 1 ≤ n) (h100 : n ≤ 100) :
    (handleText env m w).entries
      = w.entries ++
        [{ EntryID := "ENTRY" ++ FormatInt (env.clock w.ticks).unixNano, UserID := m.From.ID,
           TicketAmount := st.SelectedAmount, TransactionID := st.TransactionID,
           UniqueCode := st.UniqueCode, LuckyNumber := n,
           EntryDate := env.clock (w.ticks + 1), EntryTime := env.clock (w.ticks + 1 + 1),
           Status := "active" }] ∧
    (handleText env m w).states = DeleteUserState.loop m.From.ID w.states := by
  have hl : st.CurrentState ≠ "awaiting_transaction_id" := by rw [hlabel]; decide
  have h := handleLuckyNumberSubmission_accepted env m st
    { w with calls := w.calls + 1 } n hok hn h1 h100
  simpa [handleText, GetUserState_ok_found env _ w st (hok _) hst, handleMessageWithState,
    hlabel, hl] using h

/-- A character list without the separator is one piece. -/
theorem splitChars_of_not_mem (sep : Char) (l : List Char) (h : sep ∉ l) :
    splitChars sep l = [l] := by
  induction l with
  | nil => rfl
  | cons c cs ih =>
    simp only [List.mem_cons, not_or] at h
    have hc : c ≠ sep := fun e => h.1 e.symm
    simp [splitChars, hc, ih h.2]

/-- The first piece ends at the first separator. -/
theorem splitChars_append (sep : Char) (a l : List Char) (h : sep ∉ a) :
    splitChars sep (a ++ sep :: l) = a :: splitChars sep l := by
  induction a with
  | nil => simp [splitChars]
  | cons c cs ih =>
    simp only [List.mem_cons, not_or] at h
    have hc : c ≠ sep := fun e => h.1 e.symm
    simp [splitChars, hc, ih h.2]

/-- The callback data `select_amount:<payload>` splits into the action tag and
the payload. -/
theorem Split_select_amount (d : String) (h : ':' ∉ d.data) :
    Split ("select_amount:" ++ d) ':' = ["select_amount", d] := by
  have e : ("select_amount:" ++ d).data = "select_amount".data ++ ':' :: d.data := by
    simp [String.data_append]
  have hn : ':' ∉ "select_amount".data := by decide
  unfold Split
  rw [e, splitChars_append ':' _ _ hn, splitChars_of_not_mem ':' _ h]
  rfl

/-- A price selection with a payload that parses, with the Drive reachable:
the new state is upserted. -/
theorem handleAmountSelection_parsed (env : Env) (cb : CallbackQuery) (d : String) (w : World)
    (p : Float64) (hok : ∀ k, env.faults k = Fault.ok) (hnot : d ≠ "start")
    (hparse : env.parseFloat d = some p) :
    (handleAmountSelection env cb d w).states
      = SaveUserState.update w.states
          { UserID := cb.From.ID, CurrentState := "awaiting_transaction_id", SelectedAmount := p,
            TransactionID := "", UniqueCode := "", InvalidAttempts := 0,
            LastUpdated := env.clock w.ticks } := by
  simp [handleAmountSelection, hnot, hparse, SaveUserState_ok_states env _ _ (hok _) (hok _)]

/-- A failed `SaveLotteryEntry` leaves the entries alone. -/
theorem SaveLotteryEntry_entries_of_error (env : Env) (e : LotteryEntry) (w : World)
    (err : GoError) (h : (SaveLotteryEntry env e w).1 = some err) :
    (SaveLotteryEntry env e w).2.entries = w.entries := by
  revert h
  simp only [SaveLotteryEntry]
  repeat' split
  all_goals simp

/-- A successful `SaveLotteryEntry` appends the entry. -/
theorem SaveLotteryEntry_entries_of_ok (env : Env) (e : LotteryEntry) (w : World)
    (h : (SaveLotteryEntry env e w).1 = none) :
    (SaveLotteryEntry env e w).2.entries = w.entries ++ [e] := by
  revert h
  simp only [SaveLotteryEntry]
  repeat' split
  all_goals simp

/-- The submission of a lucky number either leaves the entries alone or appends
one entry whose lucky number is the number the text denotes, from 1 to 100. -/
theorem handleLuckyNumberSubmission_entries (env : Env) (m : Message) (st : UserState)
    (w : World) :
    (handleLuckyNumberSubmission env m st w).entries = w.entries ∨
    ∃ e, (handleLuckyNumberSubmission env m st w).entries = w.entries ++ [e] ∧
      Atoi m.Text = some e.LuckyNumber ∧ 1 ≤ e.LuckyNumber ∧ e.LuckyNumber ≤ 100 := by
  simp only [handleLuckyNumberSubmission]
  split
  · left; simp
  · rename_i number hnumber
    split
    · left; simp
    · rename_i hrange
      split
      · rename_i err hsave
        left
        simpa using SaveLotteryEntry_entries_of_error env _ _ err hsave
      · rename_i hsave
        right
        have hr : 1 ≤ number ∧ number ≤ 100 := by omega
        exact ⟨_, by simpa using SaveLotteryEntry_entries_of_ok env _ _ hsave,
          hnumber, hr.1, hr.2⟩

/-- The same alternative for the dispatch on the state label. -/
theorem handleMessageWithState_entries (env : Env) (m : Message) (st : UserState) (w : World) :
    (handleMessageWithState env m st w).entries = w.entries ∨
    ∃ e, (handleMessageWithState env m st w).entries = w.entries ++ [e] ∧
      Atoi m.Text = some e.LuckyNumber ∧ 1 ≤ e.LuckyNumber ∧ e.LuckyNumber ≤ 100 := by
  simp only [handleMessageWithState]
  split
  · left; simp
  · split
    · exact handleLuckyNumberSubmission_entries env m st w
    · split
      · left; simp
      · left; simp

/-- The same alternative for the free-text branch. -/
theorem handleText_entries (env : Env) (m : Message) (w : World) :
    (handleText env m w).entries = w.entries ∨
    ∃ e, (handleText env m w).entries = w.entries ++ [e] ∧
      Atoi m.Text = some e.LuckyNumber ∧ 1 ≤ e.LuckyNumber ∧ e.LuckyNumber ≤ 100 := by
  simp only [handleText]
  split
  · left; simp
  · rename_i state _
    simpa using handleMessageWithState_entries env m state (GetUserState env m.From.ID w).2

/-- One update either leaves the entries alone or is a message whose handling
appends one entry with the lucky number its text denotes, from 1 to 100. -/
theorem handleUpdate_entries (env : Env) (u : Update) (w : World) :
    (handleUpdate env u w).entries = w.entries ∨
    ∃ m e, u.Message = some m ∧ (handleUpdate env u w).entries = w.entries ++ [e] ∧
      Atoi m.Text = some e.LuckyNumber ∧ 1 ≤ e.LuckyNumber ∧ e.LuckyNumber ≤ 100 := by
  simp only [handleUpdate]
  split
  · rename_i m hm
    split
    · left; simp
    · left; simp
    · split
      · left; simp
      · split
        · rcases handleText_entries env m (checkRateLimit env m.From.ID w).2 with h | ⟨e, h⟩
          · left; simpa using h
          · right
            exact ⟨m, e, hm, by simpa using h.1, h.2⟩
        · left; simp
  · split
    · left; simp
    · left; rfl

/-- The lucky-number range is kept by every update. -/
theorem handleUpdate_keeps_range (env : Env) (u : Update) (w : World)
    (h : ∀ e ∈ w.entries, 1 ≤ e.LuckyNumber ∧ e.LuckyNumber ≤ 100) :
    ∀ e ∈ (handleUpdate env u w).entries, 1 ≤ e.LuckyNumber ∧ e.LuckyNumber ≤ 100 := by
  rcases handleUpdate_entries env u w with h1 | ⟨m, e, _, h1, _, h2, h3⟩
  · rw [h1]; exact h
  · rw [h1]
    intro x hx
    rcases List.mem_append.mp hx with hx | hx
    · exact h x hx
    · simp only [List.mem_singleton] at hx
      subst hx
      exact ⟨h2, h3⟩

/-- The lucky-number range is kept by every run. -/
theorem run_keeps_range (env : Env) (updates : List Update) (w : World)
    (h : ∀ e ∈ w.entries, 1 ≤ e.LuckyNumber ∧ e.LuckyNumber ≤ 100) :
    ∀ e ∈ (run env updates w).entries, 1 ≤ e.LuckyNumber ∧ e.LuckyNumber ≤ 100 := by
  induction updates generalizing w with
  | nil => exact h
  | cons u us ih => exact ih (handleUpdate env u w) (handleUpdate_keeps_range env u w h)

/-- No run writes the transactions collection. -/
theorem run_transactions (env : Env) (updates : List Update) (w : World) :
    (run env updates w).transactions = w.transactions := by
  induction updates generalizing w with
  | nil => rfl
  | cons u us ih =>
    have h := ih (handleUpdate env u w)
    simp only [handleUpdate_frame] at h
    exact h

/-- Two pieces around one separator. -/
theorem splitChars_two (sep : Char) (a b : List Char) (ha : sep ∉ a) (hb : sep ∉ b) :
    splitChars sep (a ++ sep :: b) = [a, b] := by
  rw [splitChars_append sep a b ha, splitChars_of_not_mem sep b hb]

/-- The button built from the string `label|data`. -/
theorem createInlineKeyboard_button (label data : String)
    (hl : '|' ∉ label.data) (hd : '|' ∉ data.data) :
    createInlineKeyboard [[label ++ "|" ++ data]] = [[{ label := label, data := data }]] := by
  have e : (label ++ "|" ++ data).data = label.data ++ '|' :: data.data := by
    simp [String.data_append]
  have hs : Split (label ++ "|" ++ data) '|' = [label, data] := by
    unfold Split
    rw [e, splitChars_two '|' _ _ hl hd]
    rfl
  simp [createInlineKeyboard, hs]

/-- The price menu offers, for every configured price, a button whose callback
data is `select_amount:` followed by the `%.0f` rendering of the price. -/
theorem price_button_offered (env : Env) (p : Float64) (hp : p ∈ env.config.Prices)
    (hbar : '|' ∉ (env.fmtF0 p).data) :
    [({ label := "₹" ++ env.fmtF0 p, data := "select_amount:" ++ env.fmtF0 p } : Button)]
      ∈ createInlineKeyboard (priceButtons env "select_amount") := by
  have hl : '|' ∉ ("₹" ++ env.fmtF0 p).data := by
    simp [String.data_append, hbar]
  have hd : '|' ∉ ("select_amount:" ++ env.fmtF0 p).data := by
    simp [String.data_append, hbar]
  have hb := createInlineKeyboard_button ("₹" ++ env.fmtF0 p) ("select_amount:" ++ env.fmtF0 p)
    hl hd
  simp only [createInlineKeyboard, List.map_cons, List.map_nil, List.cons.injEq, and_true] at hb
  simp only [createInlineKeyboard, priceButtons, List.map_map, List.mem_map]
  refine ⟨p, hp, ?_⟩
  simp only [Function.comp, List.map_cons, List.map_nil, List.cons.injEq, and_true]
  rw [← hb]
  have es : "₹" ++ env.fmtF0 p ++ "|" ++ "select_amount" ++ ":" ++ env.fmtF0 p
      = "₹" ++ env.fmtF0 p ++ "|" ++ ("select_amount:" ++ env.fmtF0 p) := by
    simp [String.append_assoc]
    rfl
  rw [es]

/-! ### The invalid-attempt counter -/

/-- An `int64` value is not changed by the wrap-around. -/
theorem wrapInt64_of_fits (x : Int) (h1 : minInt64 ≤ x) (h2 : x ≤ maxInt64) : wrapInt64 x = x := by
  unfold wrapInt64
  unfold minInt64 at h1
  unfold maxInt64 at h2
  omega

/-- The lookup of a user whose only record is the last one. -/
theorem GetUserState_loop_append (uid : Int) (base : List UserState) (st : UserState)
    (h : GetUserState.loop uid base = none) (hst : st.UserID = uid) :
    GetUserState.loop uid (base ++ [st]) = some st := by
  induction base with
  | nil => simp [GetUserState.loop, hst]
  | cons x xs ih =>
    by_cases hx : x.UserID = uid
    · simp [GetUserState.loop, hx] at h
    · simp only [GetUserState.loop, hx, if_false] at h
      simp [GetUserState.loop, hx, ih h]

/-- The states after `handleUnexpectedInput`, with the Drive reachable: the
state with the counter raised is upserted, and dropped again when the counter
has reached the configured maximum. -/
theorem handleUnexpectedInput_states (env : Env) (m : Message) (st : UserState) (w : World)
    (hok : ∀ k, env.faults k = Fault.ok) :
    (handleUnexpectedInput env m st w).states
      = if wrapInt64 (st.InvalidAttempts + 1) ≥ env.config.MaxInvalidAttempts then
          DeleteUserState.loop m.From.ID
            (SaveUserState.update w.states
              { st with InvalidAttempts := wrapInt64 (st.InvalidAttempts + 1) })
        else
          SaveUserState.update w.states
            { st with InvalidAttempts := wrapInt64 (st.InvalidAttempts + 1) } := by
  simp only [handleUnexpectedInput]
  split
  · simp [SaveUserState_ok_states env _ _ (hok _) (hok _),
      DeleteUserState_ok_states env _ _ (hok _) (hok _)]
  · simp [SaveUserState_ok_states env _ _ (hok _) (hok _)]

/-- The first unrecognised free text of a user without a record. -/
theorem handleText_idle_states (env : Env) (m : Message) (w : World)
    (hok : ∀ k, env.faults k = Fault.ok)
    (hidle : GetUserState.loop m.From.ID w.states = none) :
    (handleText env m w).states
      = if 1 ≥ env.config.MaxInvalidAttempts then w.states
        else w.states ++
          [{ UserID := m.From.ID, CurrentState := "", SelectedAmount := Float64.zero,
             TransactionID := "", UniqueCode := "", InvalidAttempts := 1,
             LastUpdated := env.clock w.ticks }] := by
  have hw : wrapInt64 (0 + 1) = 1 := by decide
  have h := handleUnexpectedInput_states env m
    { UserID := m.From.ID, CurrentState := "", SelectedAmount := Float64.zero,
      TransactionID := "", UniqueCode := "", InvalidAttempts := 0,
      LastUpdated := env.clock w.ticks }
    { w with calls := w.calls + 1, ticks := w.ticks + 1 } hok
  simp only [hw] at h
  have e1 : SaveUserState.update w.states
      { UserID := m.From.ID, CurrentState := "", SelectedAmount := Float64.zero,
        TransactionID := "", UniqueCode := "", InvalidAttempts := 1,
        LastUpdated := env.clock w.ticks }
      = w.states ++
        [{ UserID := m.From.ID, CurrentState := "", SelectedAmount := Float64.zero,
           TransactionID := "", UniqueCode := "", InvalidAttempts := 1,
           LastUpdated := env.clock w.ticks }] :=
    SaveUserState_update_of_absent _ _ hidle
  have e2 : DeleteUserState.loop m.From.ID
      (w.states ++
        [{ UserID := m.From.ID, CurrentState := "", SelectedAmount := Float64.zero,
           TransactionID := "", UniqueCode := "", InvalidAttempts := 1,
           LastUpdated := env.clock w.ticks }]) = w.states :=
    DeleteUserState_loop_append _ _ _ hidle rfl
  simp only [e1, e2] at h
  have hd : handleText env m w = handleUnexpectedInput env m
      { UserID := m.From.ID, CurrentState := "", SelectedAmount := Float64.zero,
        TransactionID := "", UniqueCode := "", InvalidAttempts := 0,
        LastUpdated := env.clock w.ticks }
      { w with calls := w.calls + 1, ticks := w.ticks + 1 } := by
    simp [handleText, GetUserState_ok_absent env _ w (hok _) hidle, handleMessageWithState]
  rw [hd]
  exact h

/-- A further unrecognised free text of a user whose record, the last of the
collection, has an empty state label. -/
theorem handleText_counting_states (env : Env) (m : Message) (w : World)
    (base : List UserState) (st : UserState)
    (hok : ∀ k, env.faults k = Fault.ok)
    (hw : w.states = base ++ [st])
    (hbase : GetUserState.loop m.From.ID base = none)
    (hid : st.UserID = m.From.ID) (hlabel : st.CurrentState = "")
    (h0 : 0 ≤ st.InvalidAttempts) (hfit : st.InvalidAttempts + 1 ≤ maxInt64) :
    (handleText env m w).states
      = if st.InvalidAttempts + 1 ≥ env.config.MaxInvalidAttempts then base
        else base ++ [{ st with InvalidAttempts := st.InvalidAttempts + 1 }] := by
  have hwrap : wrapInt64 (st.InvalidAttempts + 1) = st.InvalidAttempts + 1 :=
    wrapInt64_of_fits _ (by unfold minInt64; omega) hfit
  have hfound : GetUserState.loop m.From.ID w.states = some st := by
    rw [hw]; exact GetUserState_loop_append _ _ _ hbase hid
  have h := handleUnexpectedInput_states env m st { w with calls := w.calls + 1 } hok
  have e1 : SaveUserState.update (base ++ [st])
      { st with InvalidAttempts := st.InvalidAttempts + 1 }
      = base ++ [{ st with InvalidAttempts := st.InvalidAttempts + 1 }] :=
    SaveUserState_update_append base { st with InvalidAttempts := st.InvalidAttempts + 1 } st
      (by simpa [hid] using hbase) rfl
  have e2 : DeleteUserState.loop m.From.ID
      (base ++ [{ st with InvalidAttempts := st.InvalidAttempts + 1 }]) = base :=
    DeleteUserState_loop_append _ _ _ hbase hid
  have hd : handleText env m w = handleUnexpectedInput env m st
      { w with calls := w.calls + 1 } := by
    simp [handleText, GetUserState_ok_found env _ w st (hok _) hfound, handleMessageWithState,
      hlabel]
  rw [hd, h]
  simp only [hwrap, hw, e1, e2]

/-- A free-text message that passes the rate limiter is handled by the
free-text branch. -/
theorem handleUpdate_of_text (env : Env) (u : Update) (m : Message) (w : World)
    (hm : u.Message = some m) (hgate : (checkRateLimit env m.From.ID w).1 = some true)
    (hcmd : m.IsCommand = false) (htext : m.Text ≠ "") :
    handleUpdate env u w = handleText env m (checkRateLimit env m.From.ID w).2 := by
  simp [handleUpdate, hm, hgate, hcmd, htext]

/-- A run over a list followed by one more update. -/
theorem run_append_singleton (env : Env) (us : List Update) (u : Update) (w : World) :
    run env (us ++ [u]) w = handleUpdate env u (run env us w) := by
  simp [run, List.foldl_append]

/-- One unrecognised free text of a user whose record, if any, is the last of
the collection, has an empty label and counts `c` texts: the counter becomes
`c + 1`, or the record is dropped when `c + 1` reaches the maximum. -/
theorem handleUpdate_counting_step (env : Env) (u : Update) (m : Message) (w : World)
    (base : List UserState) (c : Nat)
    (hok : ∀ k, env.faults k = Fault.ok)
    (hfit : ((c : Int) + 1) ≤ maxInt64)
    (hm : u.Message = some m) (hgate : (checkRateLimit env m.From.ID w).1 = some true)
    (hcmd : m.IsCommand = false) (htext : m.Text ≠ "")
    (hbase : GetUserState.loop m.From.ID base = none)
    (hw : (c = 0 ∧ w.states = base) ∨
      (0 < c ∧ ∃ st, w.states = base ++ [st] ∧ st.UserID = m.From.ID ∧ st.CurrentState = "" ∧
        st.InvalidAttempts = (c : Int))) :
    (((c : Int) + 1 ≥ env.config.MaxInvalidAttempts) ∧ (handleUpdate env u w).states = base) ∨
    (((c : Int) + 1 < env.config.MaxInvalidAttempts) ∧
      ∃ st, (handleUpdate env u w).states = base ++ [st] ∧ st.UserID = m.From.ID ∧
        st.CurrentState = "" ∧ st.InvalidAttempts = ((c + 1 : Nat) : Int)) := by
  rw [handleUpdate_of_text env u m w hm hgate hcmd htext]
  rcases hw with ⟨hc, hs⟩ | ⟨_, st, hs, hid, hlabel, hcount⟩
  · subst hc
    have h := handleText_idle_states env m (checkRateLimit env m.From.ID w).2 hok
      (by simpa [hs] using hbase)
    simp only [checkRateLimit_frame, hs] at h
    by_cases hmx : (1 : Int) ≥ env.config.MaxInvalidAttempts
    · left
      rw [if_pos hmx] at h
      exact ⟨by simpa using hmx, h⟩
    · right
      rw [if_neg hmx] at h
      exact ⟨by simpa using hmx, _, h, rfl, rfl, by simp⟩
  · have h := handleText_counting_states env m (checkRateLimit env m.From.ID w).2 base st hok
      (by simpa using hs) hbase hid hlabel (by omega) (by omega)
    by_cases hmx : st.InvalidAttempts + 1 ≥ env.config.MaxInvalidAttempts
    · left
      rw [if_pos hmx] at h
      exact ⟨by omega, h⟩
    · right
      rw [if_neg hmx] at h
      exact ⟨by omega, _, h, hid, hlabel, by simp [hcount]⟩

/-- While fewer texts than the maximum have been handled, the user's record
counts them. -/
theorem run_prefix_states (env : Env) (w : World) (uid : Int) (us : List Update)
    (hok : ∀ k, env.faults k = Fault.ok)
    (hfit : env.config.MaxInvalidAttempts ≤ maxInt64)
    (hidle : GetUserState.loop uid w.states = none)
    (htexts : ∀ u ∈ us, ∃ m, u.Message = some m ∧ m.From.ID = uid ∧ m.IsCommand = false ∧
      m.Text ≠ "")
    (hgate : ∀ k, k < us.length → (checkRateLimit env uid (run env (us.take k) w)).1 = some true)
    (k : Nat) (hk : (k : Int) < env.config.MaxInvalidAttempts) (hlen : k ≤ us.length) :
    (k = 0 ∧ (run env (us.take k) w).states = w.states) ∨
    (0 < k ∧ ∃ st, (run env (us.take k) w).states = w.states ++ [st] ∧
      st.UserID = uid ∧ st.CurrentState = "" ∧ st.InvalidAttempts = (k : Int)) := by
  induction k with
  | zero => left; simp [run]
  | succ j ih =>
    right
    have hj : j < us.length := by omega
    obtain ⟨m, hm, hmid, hcmd, htext⟩ := htexts us[j] (List.getElem_mem _)
    have htake : us.take (j + 1) = us.take j ++ [us[j]] := by
      rw [List.take_succ, List.getElem?_eq_getElem hj]
      rfl
    refine ⟨Nat.succ_pos j, ?_⟩
    rw [htake, run_append_singleton]
    have hstep := handleUpdate_counting_step env us[j] m (run env (us.take j) w) w.states j hok
      (by omega) hm (by rw [hmid]; exact hgate j hj) hcmd htext (by rw [hmid]; exact hidle)
      (by rw [hmid]; exact ih (by omega) (by omega))
    rcases hstep with ⟨hge, _⟩ | ⟨_, st, hs, hid, hlabel, hcount⟩
    · push_cast at hk
      omega
    · exact ⟨st, hs, by rw [hid, hmid], hlabel, hcount⟩

/-! ## Record store claims -/

/-- C8: after a successful `SaveUser(u)`, a `GetUser(u.UserID)` whose read of the
collection succeeds returns a record equal to `u` in every field. -/
theorem SaveUser_then_GetUser_returns_saved (env : Env) (w : World) (u : User)
    (hsave : (SaveUser env u w).1 = none)
    (hread : env.faults (SaveUser env u w).2.calls = Fault.ok) :
    (GetUser env u.UserID (SaveUser env u w).2).1 = Except.ok u := by
  have e1 := (readFile_fst_eq_none env usersFile (SaveUser env u w).2).mpr hread
  simp [GetUser, e1, SaveUser_ok_users env u w hsave, GetUser_loop_update]

/-- C8, on a store holding two users: saving a changed record for user 7 and
reading user 7 back. -/
theorem SaveUser_then_GetUser_returns_saved_witness :
    (SaveUser (scenarioEnv 3) { aliceRecord with Status := "blocked" } twoUsersWorld).1 = none ∧
    (scenarioEnv 3).faults
      (SaveUser (scenarioEnv 3) { aliceRecord with Status := "blocked" } twoUsersWorld).2.calls
        = Fault.ok ∧
    (GetUser (scenarioEnv 3) 7
      (SaveUser (scenarioEnv 3) { aliceRecord with Status := "blocked" } twoUsersWorld).2).1
        = Except.ok { aliceRecord with Status := "blocked" } :=
  ⟨by decide, by decide,
    SaveUser_then_GetUser_returns_saved (scenarioEnv 3) twoUsersWorld
      { aliceRecord with Status := "blocked" } (by decide) (by decide)⟩

/-- C9: two successful `SaveUser` calls with the same user ID leave a collection
of the same length as after the first call alone; a lookup of that ID finds the
second record; a record with another ID stands at a position after the second
call exactly when it stood there in the original collection, and exactly when
it stood there after the first call; and when the IDs of the original
collection are pairwise distinct, every record carrying that ID is the second
record. -/
theorem SaveUser_twice_same_id_upserts (env : Env) (w : World) (u1 u2 : User)
    (hid : u1.UserID = u2.UserID)
    (h1 : (SaveUser env u1 w).1 = none)
    (h2 : (SaveUser env u2 (SaveUser env u1 w).2).1 = none) :
    (SaveUser env u2 (SaveUser env u1 w).2).2.users.length = (SaveUser env u1 w).2.users.length ∧
    GetUser.loop u2.UserID (SaveUser env u2 (SaveUser env u1 w).2).2.users = some u2 ∧
    (∀ (i : Nat) (x : User), x.UserID ≠ u2.UserID →
      ((SaveUser env u2 (SaveUser env u1 w).2).2.users[i]? = some x ↔ w.users[i]? = some x)) ∧
    (∀ (i : Nat) (x : User), x.UserID ≠ u2.UserID →
      ((SaveUser env u2 (SaveUser env u1 w).2).2.users[i]? = some x
        ↔ (SaveUser env u1 w).2.users[i]? = some x)) ∧
    ((w.users.map User.UserID).Nodup →
      ∀ x ∈ (SaveUser env u2 (SaveUser env u1 w).2).2.users, x.UserID = u2.UserID → x = u2) := by
  rw [SaveUser_ok_users env u2 _ h2, SaveUser_ok_users env u1 w h1]
  refine ⟨?_, GetUser_loop_update _ u2, ?_, ?_, ?_⟩
  · exact SaveUser_update_length_of_found _ u2 u1 (hid ▸ GetUser_loop_update w.users u1)
  · intro i x hx
    have hx1 : x.UserID ≠ u1.UserID := hid ▸ hx
    exact ⟨fun h => SaveUser_update_getElem_ne_rev _ u1 x i
        (SaveUser_update_getElem_ne_rev _ u2 x i h hx) hx1,
      fun h => SaveUser_update_getElem_ne _ u2 x i
        (SaveUser_update_getElem_ne _ u1 x i h hx1) hx⟩
  · intro i x hx
    exact ⟨fun h => SaveUser_update_getElem_ne_rev _ u2 x i h hx,
      fun h => SaveUser_update_getElem_ne _ u2 x i h hx⟩
  · intro hnd
    exact SaveUser_update_unique _ u2 (SaveUser_update_nodup _ u1 hnd)

/-- C9, on a store holding users 8 and 7: user 7 saved as blocked, then with a
new first name.  The collection keeps its two records, the record of user 8
stays where it was, and the record of user 7 is the second one saved. -/
theorem SaveUser_twice_same_id_upserts_witness :
    ({ aliceRecord with Status := "blocked" } : User).UserID
      = ({ aliceRecord with FirstName := "Alicia" } : User).UserID ∧
    (SaveUser (scenarioEnv 3) { aliceRecord with Status := "blocked" } twoUsersWorld).1 = none ∧
    (SaveUser (scenarioEnv 3) { aliceRecord with FirstName := "Alicia" }
      (SaveUser (scenarioEnv 3) { aliceRecord with Status := "blocked" } twoUsersWorld).2).1
        = none ∧
    twoUsersWorld.users[0]? = some bobRecord ∧
    (SaveUser (scenarioEnv 3) { aliceRecord with FirstName := "Alicia" }
      (SaveUser (scenarioEnv 3) { aliceRecord with Status := "blocked" }
        twoUsersWorld).2).2.users[0]? = some bobRecord ∧
    (SaveUser (scenarioEnv 3) { aliceRecord with FirstName := "Alicia" }
      (SaveUser (scenarioEnv 3) { aliceRecord with Status := "blocked" }
        twoUsersWorld).2).2.users
      = [bobRecord, { aliceRecord with FirstName := "Alicia" }] :=
  ⟨by decide, by decide, by decide, by decide,
    ((SaveUser_twice_same_id_upserts (scenarioEnv 3) twoUsersWorld
      { aliceRecord with Status := "blocked" } { aliceRecord with FirstName := "Alicia" }
      (by decide) (by decide) (by decide)).2.2.1 0 bobRecord (by decide)).mpr (by decide),
    by decide⟩

/-- C10: when the read of the states collection succeeds and the collection has
no record of the user, `GetUserState` returns no error and a state with that
user ID, an empty state label, zero invalid attempts and empty scratch fields,
and the collection is unchanged. -/
theorem GetUserState_absent_returns_fresh_state (env : Env) (w : World) (uid : Int)
    (hread : env.faults w.calls = Fault.ok) (habs : ∀ s ∈ w.states, s.UserID ≠ uid) :
    ∃ st, (GetUserState env uid w).1 = Except.ok st ∧ st.UserID = uid ∧ st.CurrentState = "" ∧
      st.InvalidAttempts = 0 ∧ st.SelectedAmount = Float64.zero ∧ st.TransactionID = "" ∧
      st.UniqueCode = "" ∧ (GetUserState env uid w).2.states = w.states := by
  rw [GetUserState_ok_absent env uid w hread ((GetUserState_loop_eq_none uid w.states).mpr habs)]
  exact ⟨_, rfl, rfl, rfl, rfl, rfl, rfl, rfl, rfl⟩

/-- C10, for user 8 on a store whose only state record belongs to user 7. -/
theorem GetUserState_absent_returns_fresh_state_witness :
    (scenarioEnv 3).faults
      (run (scenarioEnv 3) [callbackUpdate alice "select_amount:50"] emptyWorld).calls = Fault.ok ∧
    (∀ s ∈ (run (scenarioEnv 3) [callbackUpdate alice "select_amount:50"] emptyWorld).states,
      s.UserID ≠ 8) ∧
    ∃ st, (GetUserState (scenarioEnv 3) 8
        (run (scenarioEnv 3) [callbackUpdate alice "select_amount:50"] emptyWorld)).1
          = Except.ok st ∧
      st.UserID = 8 ∧ st.CurrentState = "" ∧ st.InvalidAttempts = 0 ∧
      st.SelectedAmount = Float64.zero ∧ st.TransactionID = "" ∧ st.UniqueCode = "" ∧
      (GetUserState (scenarioEnv 3) 8
        (run (scenarioEnv 3) [callbackUpdate alice "select_amount:50"] emptyWorld)).2.states
          = (run (scenarioEnv 3) [callbackUpdate alice "select_amount:50"] emptyWorld).states :=
  ⟨by decide, by decide,
    GetUserState_absent_returns_fresh_state (scenarioEnv 3)
      (run (scenarioEnv 3) [callbackUpdate alice "select_amount:50"] emptyWorld) 8
      (by decide) (by decide)⟩

/-! ## State machine claims -/

/-- C1, evaluated on the code: user 7 completes a purchase paid with reference
`TXN1` (lucky number 57), selects a price again and submits `TXN1` again.  The
second submission is accepted (the state moves on to `awaiting_lucky_number`
with `TXN1` as pending reference), and after the lucky number 58 the entries
collection holds two entries paid with `TXN1`.  No handler ever records a
transaction, so the transactions collection the duplicate check reads is still
empty. -/
theorem completed_reference_is_accepted_again :
    (run (scenarioEnv 3) purchaseCompleted emptyWorld).entries.map
        (fun e => (e.TransactionID, e.LuckyNumber)) = [("TXN1", 57)] ∧
    (run (scenarioEnv 3)
        (purchaseCompleted ++ [callbackUpdate alice "select_amount:50", textUpdate alice "TXN1"])
        emptyWorld).states.map (fun s => (s.UserID, s.CurrentState, s.TransactionID))
      = [(7, "awaiting_lucky_number", "TXN1")] ∧
    (run (scenarioEnv 3)
        (purchaseCompleted ++ [callbackUpdate alice "select_amount:50", textUpdate alice "TXN1",
          textUpdate alice "58"])
        emptyWorld).entries.map (fun e => (e.TransactionID, e.LuckyNumber))
      = [("TXN1", 57), ("TXN1", 58)] ∧
    (run (scenarioEnv 3)
        (purchaseCompleted ++ [callbackUpdate alice "select_amount:50", textUpdate alice "TXN1",
          textUpdate alice "58"])
        emptyWorld).transactions = [] := by
  decide

/-- C2: for a user whose only persisted state is `awaiting_lucky_number` with
amount `a`, reference `r` and code `c`, a free-text message that passes the rate
limiter and whose text `strconv.Atoi` reads as `n` with `1 ≤ n ≤ 100` appends,
with the Drive reachable, exactly one entry with `LuckyNumber = n`,
`TicketAmount = a`, `TransactionID = r`, `UniqueCode = c` and the user's ID, and
afterwards the user has no persisted state. -/
theorem lucky_number_creates_entry_and_clears_state (env : Env) (w : World) (u : Update)
    (m : Message) (st : UserState) (n : Int)
    (hm : u.Message = some m)
    (hgate : (checkRateLimit env m.From.ID w).1 = some true)
    (hcmd : m.IsCommand = false)
    (hn : Atoi m.Text = some n) (h1 : 1 ≤ n) (h100 : n ≤ 100)
    (hok : ∀ k, env.faults k = Fault.ok)
    (hst : GetUserState.loop m.From.ID w.states = some st)
    (hlabel : st.CurrentState = "awaiting_lucky_number")
    (huniq : (w.states.map UserState.UserID).Nodup) :
    ∃ e, (handleUpdate env u w).entries = w.entries ++ [e] ∧
      e.LuckyNumber = n ∧ e.TicketAmount = st.SelectedAmount ∧
      e.TransactionID = st.TransactionID ∧ e.UniqueCode = st.UniqueCode ∧
      e.UserID = m.From.ID ∧
      GetUserState.loop m.From.ID (handleUpdate env u w).states = none := by
  have htext : m.Text ≠ "" := Atoi_ne_empty m.Text n hn
  have h := handleText_lucky env m st (checkRateLimit env m.From.ID w).2 n hok
    (by simpa using hst) hlabel hn h1 h100
  simp only [checkRateLimit_frame] at h
  have hu : handleUpdate env u w = handleText env m (checkRateLimit env m.From.ID w).2 := by
    simp [handleUpdate, hm, hgate, hcmd, htext]
  rw [hu, h.1, h.2]
  exact ⟨_, rfl, rfl, rfl, rfl, rfl, rfl, GetUserState_loop_delete _ _ huniq⟩

/-- C2 on the scenario of the specification: prices `[10, 50, 100]`, price 50
picked, `TXN1` submitted, then `57`. -/
theorem lucky_number_creates_entry_and_clears_state_witness :
    (checkRateLimit (scenarioEnv 3) 7 (run (scenarioEnv 3) purchaseStarted emptyWorld)).1
      = some true ∧
    Atoi "57" = some 57 ∧
    GetUserState.loop 7 (run (scenarioEnv 3) purchaseStarted emptyWorld).states
      = some { UserID := 7, CurrentState := "awaiting_lucky_number", SelectedAmount := f50,
               TransactionID := "TXN1", UniqueCode := "LC1700000020000000000",
               InvalidAttempts := 0,
               LastUpdated := { unixNano := 1700000000000000000, zoneOffset := 0 } } ∧
    ∃ e, (handleUpdate (scenarioEnv 3) (textUpdate alice "57")
          (run (scenarioEnv 3) purchaseStarted emptyWorld)).entries
        = (run (scenarioEnv 3) purchaseStarted emptyWorld).entries ++ [e] ∧
      e.LuckyNumber = 57 ∧ e.TicketAmount = f50 ∧ e.TransactionID = "TXN1" ∧
      e.UniqueCode = "LC1700000020000000000" ∧ e.UserID = 7 ∧
      GetUserState.loop 7 (handleUpdate (scenarioEnv 3) (textUpdate alice "57")
          (run (scenarioEnv 3) purchaseStarted emptyWorld)).states = none :=
  ⟨by decide, by decide, by decide,
    lucky_number_creates_entry_and_clears_state (scenarioEnv 3)
      (run (scenarioEnv 3) purchaseStarted emptyWorld) (textUpdate alice "57")
      (textMessage alice "57")
      { UserID := 7, CurrentState := "awaiting_lucky_number", SelectedAmount := f50,
        TransactionID := "TXN1", UniqueCode := "LC1700000020000000000", InvalidAttempts := 0,
        LastUpdated := { unixNano := 1700000000000000000, zoneOffset := 0 } }
      57 rfl (by decide) rfl (by decide) (by decide) (by decide) (fun _ => rfl) (by decide) rfl
      (by decide)⟩

/-- C3: for a user whose persisted state is `awaiting_transaction_id`, an inbound
message whose text equals the reference of a record in the transactions
collection creates no lottery entry and leaves the states collection, hence the
user's persisted state with all its scratch fields, unchanged.  This holds
whatever the rate limiter, the Drive and the Telegram API do. -/
theorem used_reference_creates_no_entry_and_keeps_state (env : Env) (w : World) (u : Update)
    (m : Message) (st : UserState) (t : Transaction)
    (hm : u.Message = some m)
    (hst : GetUserState.loop m.From.ID w.states = some st)
    (hlabel : st.CurrentState = "awaiting_transaction_id")
    (ht : t ∈ w.transactions) (hid : t.TransactionID = m.Text) :
    (handleUpdate env u w).entries = w.entries ∧
    (handleUpdate env u w).states = w.states ∧
    GetUserState.loop m.From.ID (handleUpdate env u w).states = some st := by
  have key : (handleUpdate env u w).entries = w.entries ∧
      (handleUpdate env u w).states = w.states := by
    simp only [handleUpdate, hm]
    split
    · simp
    · simp
    · split
      · simp
      · split
        · have h := handleText_used env m st (checkRateLimit env m.From.ID w).2 t
            (by simpa using hst) hlabel (by simpa using ht) hid
          simpa using h
        · simp
  exact ⟨key.1, key.2, by rw [key.2]; exact hst⟩

/-- C3 on a store where `TXN1` is a recorded transaction and user 7, asked for a
reference, submits `TXN1`. -/
theorem used_reference_creates_no_entry_and_keeps_state_witness :
    (∃ t ∈ usedReferenceWorld.transactions, t.TransactionID = "TXN1") ∧
    (handleUpdate (scenarioEnv 3) (textUpdate alice "TXN1") usedReferenceWorld).entries
      = usedReferenceWorld.entries ∧
    (handleUpdate (scenarioEnv 3) (textUpdate alice "TXN1") usedReferenceWorld).states
      = usedReferenceWorld.states ∧
    GetUserState.loop 7
        (handleUpdate (scenarioEnv 3) (textUpdate alice "TXN1") usedReferenceWorld).states
      = some { UserID := 7, CurrentState := "awaiting_transaction_id", SelectedAmount := f50,
               TransactionID := "", UniqueCode := "", InvalidAttempts := 0,
               LastUpdated := { unixNano := 1699999990000000000, zoneOffset := 0 } } :=
  ⟨by decide,
    used_reference_creates_no_entry_and_keeps_state (scenarioEnv 3) usedReferenceWorld
      (textUpdate alice "TXN1") (textMessage alice "TXN1")
      { UserID := 7, CurrentState := "awaiting_transaction_id", SelectedAmount := f50,
        TransactionID := "", UniqueCode := "", InvalidAttempts := 0,
        LastUpdated := { unixNano := 1699999990000000000, zoneOffset := 0 } }
      { TransactionID := "TXN1", UserID := 8, Amount := f50,
        Date := { unixNano := 1690000000000000000, zoneOffset := 0 },
        Time := { unixNano := 1690000000000000000, zoneOffset := 0 }, Status := "verified" }
      rfl (by decide) rfl (by decide) rfl⟩

/-- C4, evaluated on the code: user 7 is in `awaiting_lucky_number` with the
invalid-attempt counter at 0 and submits `101`, then `0`.  The state label is
unchanged, and so is the counter: the persisted record is the same before and
after, with `InvalidAttempts = 0`. -/
theorem out_of_range_number_does_not_count :
    Atoi "101" = some 101 ∧ Atoi "0" = some 0 ∧
    (run (scenarioEnv 3) purchaseStarted emptyWorld).states.map
        (fun s => (s.UserID, s.CurrentState, s.InvalidAttempts))
      = [(7, "awaiting_lucky_number", 0)] ∧
    (run (scenarioEnv 3) (purchaseStarted ++ [textUpdate alice "101"]) emptyWorld).states
      = (run (scenarioEnv 3) purchaseStarted emptyWorld).states ∧
    (run (scenarioEnv 3) (purchaseStarted ++ [textUpdate alice "101", textUpdate alice "0"])
        emptyWorld).states.map (fun s => (s.UserID, s.CurrentState, s.InvalidAttempts))
      = [(7, "awaiting_lucky_number", 0)] := by
  decide

/-- C5 as stated fails: with `maxInvalidAttempts = 2`, an idle user sends three
unrecognised texts.  The second one already reset the user (no record is left
after it), and the next invalid input, the third, leaves a persisted state with
the counter at 1 instead of resetting. -/
theorem input_after_max_invalid_inputs_is_not_a_reset :
    GetUserState.loop 7
        (run (scenarioEnv 2) [textUpdate alice "hello", textUpdate alice "hello"]
          emptyWorld).states = none ∧
    (run (scenarioEnv 2)
        [textUpdate alice "hello", textUpdate alice "hello", textUpdate alice "hello"]
        emptyWorld).states.map (fun s => (s.UserID, s.CurrentState, s.InvalidAttempts))
      = [(7, "", 1)] ∧
    ¬ (GetUserState.loop 7
        (run (scenarioEnv 2)
          [textUpdate alice "hello", textUpdate alice "hello", textUpdate alice "hello"]
          emptyWorld).states = none) := by
  decide

/-- C5, amended: let `maxInvalidAttempts ≥ 1` (an `int`), the Drive be
reachable, and a user without persisted state send `maxInvalidAttempts` free
texts, none of them a command, each of which passes the rate limiter.  After
each of the first `maxInvalidAttempts - 1` of them the user has a persisted
state with an empty label whose counter is the number of texts so far; the
`maxInvalidAttempts`-th text resets the user: no persisted state is left, and
`GetUserState` then returns a state with counter 0. -/
theorem max_th_invalid_input_resets_idle_user (env : Env) (w : World) (uid : Int)
    (us : List Update)
    (hok : ∀ k, env.faults k = Fault.ok)
    (hmax : 1 ≤ env.config.MaxInvalidAttempts)
    (hfit : env.config.MaxInvalidAttempts ≤ maxInt64)
    (hidle : GetUserState.loop uid w.states = none)
    (htexts : ∀ u ∈ us, ∃ m, u.Message = some m ∧ m.From.ID = uid ∧ m.IsCommand = false ∧
      m.Text ≠ "")
    (hgate : ∀ k, k < us.length → (checkRateLimit env uid (run env (us.take k) w)).1 = some true)
    (hlen : (us.length : Int) = env.config.MaxInvalidAttempts) :
    (∀ k, 0 < k → k < us.length →
      ∃ st, GetUserState.loop uid (run env (us.take k) w).states = some st ∧
        st.CurrentState = "" ∧ st.InvalidAttempts = (k : Int)) ∧
    GetUserState.loop uid (run env us w).states = none ∧
    ∃ st, (GetUserState env uid (run env us w)).1 = Except.ok st ∧ st.CurrentState = "" ∧
      st.InvalidAttempts = 0 := by
  have hfinal : (run env us w).states = w.states := by
    obtain ⟨j, hj⟩ : ∃ j, us.length = j + 1 := ⟨us.length - 1, by omega⟩
    have hjl : j < us.length := by omega
    obtain ⟨m, hm, hmid, hcmd, htext⟩ := htexts us[j] (List.getElem_mem _)
    have hsplit : us = us.take j ++ [us[j]] := by
      have h1 : us.take (j + 1) = us.take j ++ [us[j]] := by
        rw [List.take_succ, List.getElem?_eq_getElem hjl]
        rfl
      rw [← h1, ← hj, List.take_length]
    rw [hsplit, run_append_singleton]
    have hstep := handleUpdate_counting_step env us[j] m (run env (us.take j) w) w.states j hok
      (by omega) hm (by rw [hmid]; exact hgate j hjl) hcmd htext (by rw [hmid]; exact hidle)
      (by rw [hmid]
          exact run_prefix_states env w uid us hok hfit hidle htexts hgate j (by omega) (by omega))
    rcases hstep with ⟨_, hs⟩ | ⟨hlt, _⟩
    · exact hs
    · omega
  refine ⟨?_, by rw [hfinal]; exact hidle, ?_⟩
  · intro k hk0 hkl
    rcases run_prefix_states env w uid us hok hfit hidle htexts hgate k (by omega) (by omega)
      with ⟨hk, _⟩ | ⟨_, st, hs, hid, hlabel, hcount⟩
    · omega
    · exact ⟨st, by rw [hs]; exact GetUserState_loop_append _ _ _ hidle hid, hlabel, hcount⟩
  · rw [GetUserState_ok_absent env uid _ (hok _) (by rw [hfinal]; exact hidle)]
    exact ⟨_, rfl, rfl, rfl⟩

/-- C5 amended, with `maxInvalidAttempts = 3`: three unrecognised texts of the
idle user 7, the third of which resets. -/
theorem max_th_invalid_input_resets_idle_user_witness :
    (1 : Int) ≤ (scenarioEnv 3).config.MaxInvalidAttempts ∧
    GetUserState.loop 7 emptyWorld.states = none ∧
    (∀ k, k < 3 →
      (checkRateLimit (scenarioEnv 3) 7
        (run (scenarioEnv 3)
          ([textUpdate alice "hello", textUpdate alice "hi", textUpdate alice "help"].take k)
          emptyWorld)).1 = some true) ∧
    GetUserState.loop 7
      (run (scenarioEnv 3)
        [textUpdate alice "hello", textUpdate alice "hi", textUpdate alice "help"]
        emptyWorld).states = none :=
  ⟨by decide, by decide, by decide,
    (max_th_invalid_input_resets_idle_user (scenarioEnv 3) emptyWorld 7
      [textUpdate alice "hello", textUpdate alice "hi", textUpdate alice "help"]
      (fun _ => rfl) (by decide) (by decide) (by decide) (by decide) (by decide) (by decide)).2.1⟩

/-- C6 as stated fails: with the configured prices `[9.99, 50, 100]` the price
menu offers for 9.99 a button with callback data `select_amount:10` (the price
rendered with `%.0f`); handling that callback for the fresh user 7 persists
`SelectedAmount = 10`, which is not the configured price. -/
theorem button_of_a_fractional_price_persists_the_rounded_amount :
    f999 ∈ centsEnv.config.Prices ∧ f10 ≠ f999 ∧
    (handleUpdate centsEnv (callbackUpdate alice "select_amount:start") emptyWorld).sent
      = [Outbound.editText 7 2 "कृपया टिकट की कीमत चुनें:"
          [[{ label := "₹10", data := "select_amount:10" }],
           [{ label := "₹50", data := "select_amount:50" }],
           [{ label := "₹100", data := "select_amount:100" }],
           [{ label := "होम", data := "navigation:home" }]],
         Outbound.callbackAnswer "cb"] ∧
    GetUserState.loop 7 emptyWorld.states = none ∧
    (handleUpdate centsEnv (callbackUpdate alice "select_amount:10") emptyWorld).states.map
        (fun s => (s.UserID, s.CurrentState, s.SelectedAmount))
      = [(7, "awaiting_transaction_id", f10)] := by
  decide

/-- C6, amended: let `p` be a configured price whose `%.0f` rendering
`strconv.ParseFloat` reads back as `p` (the rendering being a number text: no
`:` or `|` in it, and not the word `start`).  Then the price menu offers a
button with callback data `select_amount:` followed by that rendering, and for a
user without persisted state the handling of this callback leaves, with the
Drive reachable, a persisted state of that user with
`CurrentState = "awaiting_transaction_id"` and `SelectedAmount = p`: the record
is appended to the states collection and is what a lookup of the user finds. -/
theorem price_selection_persists_awaiting_transaction_id (env : Env) (w : World) (u : Update)
    (cb : CallbackQuery) (p : Float64)
    (hp : p ∈ env.config.Prices)
    (hround : env.parseFloat (env.fmtF0 p) = some p)
    (hcolon : ':' ∉ (env.fmtF0 p).data) (hbar : '|' ∉ (env.fmtF0 p).data)
    (hnot : env.fmtF0 p ≠ "start")
    (hm : u.Message = none) (hcb : u.CallbackQuery = some cb)
    (hdata : cb.Data = "select_amount:" ++ env.fmtF0 p)
    (hok : ∀ k, env.faults k = Fault.ok)
    (hidle : GetUserState.loop cb.From.ID w.states = none) :
    [({ label := "₹" ++ env.fmtF0 p, data := "select_amount:" ++ env.fmtF0 p } : Button)]
      ∈ createInlineKeyboard (priceButtons env "select_amount" ++ [["होम|navigation:home"]]) ∧
    ∃ st, (handleUpdate env u w).states = w.states ++ [st] ∧
      GetUserState.loop cb.From.ID (handleUpdate env u w).states = some st ∧
      st.UserID = cb.From.ID ∧ st.CurrentState = "awaiting_transaction_id" ∧
      st.SelectedAmount = p ∧ st.TransactionID = "" ∧ st.UniqueCode = "" ∧
      st.InvalidAttempts = 0 := by
  have hs := handleAmountSelection_parsed env cb (env.fmtF0 p) w p hok hnot hround
  have hu : (handleUpdate env u w).states
      = (handleAmountSelection env cb (env.fmtF0 p) w).states := by
    simp [handleUpdate, hm, hcb, handleCallback, hdata, Split_select_amount _ hcolon]
  refine ⟨?_, ?_⟩
  · have hb := price_button_offered env p hp hbar
    simp only [createInlineKeyboard, List.map_append, List.mem_append] at hb ⊢
    exact Or.inl hb
  · rw [hu, hs]
    exact ⟨_, SaveUserState_update_of_absent _ _ hidle,
      GetUserState_loop_update w.states
        { UserID := cb.From.ID, CurrentState := "awaiting_transaction_id", SelectedAmount := p,
          TransactionID := "", UniqueCode := "", InvalidAttempts := 0,
          LastUpdated := env.clock w.ticks },
      rfl, rfl, rfl, rfl, rfl, rfl⟩

/-- C6 amended, on the scenario of the specification: prices `[10, 50, 100]`,
the fresh user 7 presses the button of 50. -/
theorem price_selection_persists_awaiting_transaction_id_witness :
    f50 ∈ (scenarioEnv 3).config.Prices ∧
    (scenarioEnv 3).parseFloat ((scenarioEnv 3).fmtF0 f50) = some f50 ∧
    (buttonPress alice "select_amount:50").Data
      = "select_amount:" ++ (scenarioEnv 3).fmtF0 f50 ∧
    GetUserState.loop 7 emptyWorld.states = none ∧
    ∃ st, (handleUpdate (scenarioEnv 3) (callbackUpdate alice "select_amount:50")
          emptyWorld).states = emptyWorld.states ++ [st] ∧
      GetUserState.loop 7 (handleUpdate (scenarioEnv 3) (callbackUpdate alice "select_amount:50")
          emptyWorld).states = some st ∧
      st.UserID = 7 ∧ st.CurrentState = "awaiting_transaction_id" ∧ st.SelectedAmount = f50 ∧
      st.TransactionID = "" ∧ st.UniqueCode = "" ∧ st.InvalidAttempts = 0 :=
  ⟨by decide, by decide, by decide, by decide,
    (price_selection_persists_awaiting_transaction_id (scenarioEnv 3) emptyWorld
      (callbackUpdate alice "select_amount:50") (buttonPress alice "select_amount:50") f50
      (by decide) (by decide) (by decide) (by decide) (by decide) rfl rfl (by decide)
      (fun _ => rfl) (by decide)).2⟩

/-- C7: if every entry of the collection has its lucky number in `[1,100]`,
then after any sequence of updates, whatever the Drive, the clock and the
Telegram API do, every entry still has; and in the state reached, a message
whose text `strconv.Atoi` rejects or reads as a number below 1 or above 100
leaves the entries collection as it is. -/
theorem lucky_numbers_stay_in_range (env : Env) (updates : List Update) (w : World)
    (h : ∀ e ∈ w.entries, 1 ≤ e.LuckyNumber ∧ e.LuckyNumber ≤ 100) :
    (∀ e ∈ (run env updates w).entries, 1 ≤ e.LuckyNumber ∧ e.LuckyNumber ≤ 100) ∧
    (∀ (u : Update) (m : Message), u.Message = some m →
      (∀ n, Atoi m.Text = some n → n < 1 ∨ 100 < n) →
      (handleUpdate env u (run env updates w)).entries = (run env updates w).entries) := by
  refine ⟨run_keeps_range env updates w h, ?_⟩
  intro u m hm hbad
  rcases handleUpdate_entries env u (run env updates w) with h1 | ⟨m2, e, hm2, _, h2, h3, h4⟩
  · exact h1
  · rw [hm] at hm2
    cases hm2
    rcases hbad e.LuckyNumber h2 with hb | hb <;> omega

/-- C7 on a store that holds the entry of a completed purchase, followed by a
second purchase with rejected numbers in between. -/
theorem lucky_numbers_stay_in_range_witness :
    (∀ e ∈ (run (scenarioEnv 3) purchaseCompleted emptyWorld).entries,
      1 ≤ e.LuckyNumber ∧ e.LuckyNumber ≤ 100) ∧
    (∀ e ∈ (run (scenarioEnv 3)
        [callbackUpdate alice "select_amount:10", textUpdate alice "TXN2", textUpdate alice "0",
          textUpdate alice "lucky", textUpdate alice "101", textUpdate alice "100"]
        (run (scenarioEnv 3) purchaseCompleted emptyWorld)).entries,
      1 ≤ e.LuckyNumber ∧ e.LuckyNumber ≤ 100) :=
  ⟨by decide,
    (lucky_numbers_stay_in_range (scenarioEnv 3)
      [callbackUpdate alice "select_amount:10", textUpdate alice "TXN2", textUpdate alice "0",
        textUpdate alice "lucky", textUpdate alice "101", textUpdate alice "100"]
      (run (scenarioEnv 3) purchaseCompleted emptyWorld) (by decide)).1⟩

/-! ## Second group of claims: store operations and the rate limiter -/

/-- C11, evaluated on the code for the day 2023-11-15: the record stamped
exactly 2023-11-15 00:00:00 lies in the half-open window of the day, yet
`GetEntriesByDate` and `GetTransactionsByDate` leave it out (`After(startDate)`
is strict); they return the records one nanosecond after the start and one
nanosecond before the end, and leave out the record exactly at the end. -/
theorem day_window_leaves_out_record_at_midnight :
    startOfDay theDay = theDay ∧
    (theDay.unixNano ≤ (entryAt "E1" 1700006400000000000).EntryDate.unixNano ∧
      (entryAt "E1" 1700006400000000000).EntryDate.unixNano < theDay.unixNano + dayNanos) ∧
    (GetEntriesByDate (scenarioEnv 3) theDay boundaryWorld).1
      = Except.ok [entryAt "E2" 1700006400000000001, entryAt "E3" 1700092799999999999] ∧
    (GetTransactionsByDate (scenarioEnv 3) theDay boundaryWorld).1
      = Except.ok [transactionAt "T2" 1700006400000000001,
          transactionAt "T3" 1700092799999999999] :=
  ⟨by decide, by decide, rfl, rfl⟩

/-- C12, evaluated on the code.  With 7 commands per minute a message 8.2
seconds after the last one is within `60s / 7` (8.2 · 7 < 60), yet it is
accepted and the timestamp is overwritten, because the code compares with the
integer quotient `60/7 = 8`.  With 100 commands per minute the quotient is 0 and
a message 0.1 seconds after the last one is accepted as well. -/
theorem rate_limit_interval_is_whole_seconds :
    ((8200000000 : Int) * 7 < 60 * 1000000000 ∧
      checkRateLimit (rateEnv 7 1700000008200000000) 7 (seenWorld 1700000000000000000)
        = (some true,
            { emptyWorld with
              rateLimiter := [("7", { unixNano := 1700000008200000000, zoneOffset := 0 })]
              ticks := 1 })) ∧
    ((100000000 : Int) * 100 < 60 * 1000000000 ∧
      checkRateLimit (rateEnv 100 1700000000100000000) 7 (seenWorld 1700000000000000000)
        = (some true,
            { emptyWorld with
              rateLimiter := [("7", { unixNano := 1700000000100000000, zoneOffset := 0 })]
              ticks := 1 })) := by
  decide

/-- C15, evaluated on the code: when the read succeeds and the write fails,
each of the five writing operations returns the bare error of `writeFile`, not
a `StorageError` carrying its name; when the read fails, `SaveUser` does return
a `StorageError` named `SaveUser`. -/
theorem write_failure_is_not_a_StorageError :
    (SaveUser (failingEnv 1) aliceRecord emptyWorld).1
      = some (GoError.errorf "failed to write file users.json") ∧
    (SaveTransaction (failingEnv 1) (transactionAt "T1" 1700006400000000000) emptyWorld).1
      = some (GoError.errorf "failed to write file transactions.json") ∧
    (SaveLotteryEntry (failingEnv 1) (entryAt "E1" 1700006400000000000) emptyWorld).1
      = some (GoError.errorf "failed to write file lottery_entries.json") ∧
    (SaveUserState (failingEnv 1)
        { UserID := 7, CurrentState := "awaiting_transaction_id", SelectedAmount := f50,
          TransactionID := "", UniqueCode := "", InvalidAttempts := 0, LastUpdated := theDay }
        emptyWorld).1
      = some (GoError.errorf "failed to write file user_states.json") ∧
    (DeleteUserState (failingEnv 1) 7 emptyWorld).1
      = some (GoError.errorf "failed to write file user_states.json") ∧
    (SaveUser (failingEnv 0) aliceRecord emptyWorld).1
      = some (GoError.storageError "SaveUser"
          (GoError.errorf "failed to download file users.json")) := by
  decide

/-! ## Administrative commands -/

/-- The check `isAdmin` fails exactly when the decimal ID is not in the
allow-list. -/
theorem isAdmin_eq_false (env : Env) (userID : Int) :
    isAdmin env userID = false ↔ FormatInt userID ∉ env.config.AdminIDs := by
  simp only [isAdmin, List.any_eq_false, decide_eq_true_eq]
  constructor
  · intro h hmem
    exact h _ hmem rfl
  · intro h x hx hxe
    exact h (hxe ▸ hx)

/-- The check `isAdmin` succeeds exactly when the decimal ID is in the
allow-list. -/
theorem isAdmin_eq_true (env : Env) (userID : Int) :
    isAdmin env userID = true ↔ FormatInt userID ∈ env.config.AdminIDs := by
  simp only [isAdmin, List.any_eq_true, decide_eq_true_eq]
  constructor
  · rintro ⟨x, hx, hxe⟩
    exact hxe ▸ hx
  · intro h
    exact ⟨_, h, rfl⟩

/-- C13: for a caller whose decimal ID is not in the admin allow-list, each of
`handleViewDataCommand`, `handleSelectWinnerCommand`, `handleExportUsersCommand`
and `handleWinnerAmountSelection` hands exactly one request to the Telegram API,
the fixed rejection message, and changes nothing else: users, entries,
transactions, states, rate limiter and both counters are as before.  The same
holds for `handleCommand` on the three command names. -/
theorem non_admin_is_rejected_without_side_effects (env : Env) (w : World) (m : Message)
    (cb : CallbackQuery) (d : String)
    (hm : FormatInt m.From.ID ∉ env.config.AdminIDs)
    (hcb : FormatInt cb.From.ID ∉ env.config.AdminIDs) :
    handleViewDataCommand env m w
      = { w with sent := w.sent ++ [Outbound.message m.ChatID "⚠️ आप Admin नहीं हैं!" [] ""] } ∧
    handleSelectWinnerCommand env m w
      = { w with sent := w.sent ++ [Outbound.message m.ChatID "⚠️ आप Admin नहीं हैं!" [] ""] } ∧
    handleExportUsersCommand env m w
      = { w with sent := w.sent ++ [Outbound.message m.ChatID "⚠️ आप Admin नहीं हैं!" [] ""] } ∧
    handleWinnerAmountSelection env cb d w
      = { w with
          sent := w.sent ++ [Outbound.message cb.Message.ChatID "⚠️ आप Admin नहीं हैं!" [] ""] } ∧
    (m.Command = "view_data" ∨ m.Command = "select_winner" ∨ m.Command = "export_all_users" →
      handleCommand env m w
        = { w with
            sent := w.sent ++ [Outbound.message m.ChatID "⚠️ आप Admin नहीं हैं!" [] ""] }) := by
  have h1 := (isAdmin_eq_false env m.From.ID).mpr hm
  have h2 := (isAdmin_eq_false env cb.From.ID).mpr hcb
  have e1 : handleViewDataCommand env m w
      = { w with sent := w.sent ++ [Outbound.message m.ChatID "⚠️ आप Admin नहीं हैं!" [] ""] } := by
    simp [handleViewDataCommand, h1]
  have e2 : handleSelectWinnerCommand env m w
      = { w with sent := w.sent ++ [Outbound.message m.ChatID "⚠️ आप Admin नहीं हैं!" [] ""] } := by
    simp [handleSelectWinnerCommand, h1]
  have e3 : handleExportUsersCommand env m w
      = { w with sent := w.sent ++ [Outbound.message m.ChatID "⚠️ आप Admin नहीं हैं!" [] ""] } := by
    simp [handleExportUsersCommand, h1]
  refine ⟨e1, e2, e3, by simp [handleWinnerAmountSelection, h2], ?_⟩
  rintro (hc | hc | hc)
  · simp [handleCommand, hc, e1]
  · simp [handleCommand, hc, e2]
  · simp [handleCommand, hc, e3]

/-- C13 for user 7, who is not the administrator of the scenario deployment,
sending `/export_all_users` to a store with two users. -/
theorem non_admin_is_rejected_without_side_effects_witness :
    FormatInt alice.ID ∉ (scenarioEnv 3).config.AdminIDs ∧
    handleCommand (scenarioEnv 3) (commandMessage alice "export_all_users" "") twoUsersWorld
      = { twoUsersWorld with
          sent := [Outbound.message 7 "⚠️ आप Admin नहीं हैं!" [] ""] } :=
  ⟨by decide,
    (non_admin_is_rejected_without_side_effects (scenarioEnv 3) twoUsersWorld
      (commandMessage alice "export_all_users" "") (buttonPress alice "winner_amount:50") "50"
      (by decide) (by decide)).2.2.2.2 (Or.inr (Or.inr rfl))⟩

/-- C14 as stated fails: the administrator sends `/view_data date` without a
date.  The answer is the help text of `view_data`, not the date-format error. -/
theorem missing_date_argument_gets_help_text :
    isAdmin (scenarioEnv 3) adminAccount.ID = true ∧
    (handleViewDataCommand (scenarioEnv 3) (commandMessage adminAccount "view_data" "date")
        emptyWorld)
      = sendViewDataHelp (scenarioEnv 3) 1 emptyWorld ∧
    (handleViewDataCommand (scenarioEnv 3) (commandMessage adminAccount "view_data" "date")
        emptyWorld).sent
      ≠ [Outbound.message 1 "⚠️ Invalid date format. Use YYYY-MM-DD" [] ""] :=
  ⟨by decide, rfl, by decide⟩

/-- C14, amended: for an admin caller, the sub-commands `date` and `txndate`
followed by an argument that `time.Parse("2006-01-02", ·)` rejects answer with
the date-format error and do nothing else (the store is not read); with fewer
than two words after `/view_data` (the date is missing) the answer is the help
text of `view_data`, again without reading the store. -/
theorem bad_date_gets_format_error_and_missing_date_gets_help (env : Env) (w : World)
    (m : Message) (hadmin : FormatInt m.From.ID ∈ env.config.AdminIDs) :
    (∀ (sub arg : String) (rest : List String), sub = "date" ∨ sub = "txndate" →
      Fields m.CommandArguments = sub :: arg :: rest → env.parseDate arg = none →
      handleViewDataCommand env m w
        = { w with
            sent := w.sent ++
              [Outbound.message m.ChatID "⚠️ Invalid date format. Use YYYY-MM-DD" [] ""] }) ∧
    ((Fields m.CommandArguments).length < 2 →
      handleViewDataCommand env m w = sendViewDataHelp env m.ChatID w ∧
      (handleViewDataCommand env m w).calls = w.calls) := by
  have h1 := (isAdmin_eq_true env m.From.ID).mpr hadmin
  refine ⟨?_, ?_⟩
  · intro sub arg rest hsub hfields hparse
    rcases hsub with hs | hs
    · subst hs
      simp [handleViewDataCommand, h1, hfields, handleViewDateData, hparse]
    · subst hs
      simp [handleViewDataCommand, h1, hfields, handleViewTransactionsByDate, hparse]
  · intro hlen
    have e : handleViewDataCommand env m w = sendViewDataHelp env m.ChatID w := by
      simp only [handleViewDataCommand, h1, Bool.not_true, Bool.false_eq_true, if_false]
      split
      · rename_i heq
        rw [heq] at hlen
        simp only [List.length_cons] at hlen
        omega
      · rfl
    exact ⟨e, by rw [e]; simp [sendViewDataHelp]⟩

/-- C14 amended, for the administrator of the scenario deployment sending
`/view_data date tomorrow`. -/
theorem bad_date_gets_format_error_and_missing_date_gets_help_witness :
    FormatInt adminAccount.ID ∈ (scenarioEnv 3).config.AdminIDs ∧
    Fields (commandMessage adminAccount "view_data" "date tomorrow").CommandArguments
      = ["date", "tomorrow"] ∧
    (scenarioEnv 3).parseDate "tomorrow" = none ∧
    handleViewDataCommand (scenarioEnv 3)
        (commandMessage adminAccount "view_data" "date tomorrow") boundaryWorld
      = { boundaryWorld with
          sent := [Outbound.message 1 "⚠️ Invalid date format. Use YYYY-MM-DD" [] ""] } :=
  ⟨by decide, by decide, rfl,
    (bad_date_gets_format_error_and_missing_date_gets_help (scenarioEnv 3) boundaryWorld
      (commandMessage adminAccount "view_data" "date tomorrow") (by decide)).1
      "date" "tomorrow" [] (Or.inl rfl) (by decide) rfl⟩

/-! ## Transactions and user states: uniqueness -/

/-- A successful `SaveTransaction` stores the collection with the record
appended. -/
theorem SaveTransaction_ok_transactions (env : Env) (t : Transaction) (w : World)
    (h : (SaveTransaction env t w).1 = none) :
    (SaveTransaction env t w).2.transactions = w.transactions ++ [t] := by
  revert h
  simp only [SaveTransaction]
  repeat' split
  all_goals simp

/-- C16 as stated fails: on a store that holds a transaction with reference
`TXN1`, `SaveTransaction` of another record with reference `TXN1` succeeds and
appends it; the collection is changed and holds the reference twice. -/
theorem SaveTransaction_accepts_a_present_reference :
    (usedReferenceWorld.transactions.map Transaction.TransactionID).Nodup ∧
    "TXN1" ∈ usedReferenceWorld.transactions.map Transaction.TransactionID ∧
    (SaveTransaction (scenarioEnv 3) (transactionAt "TXN1" 1700006400000000000)
        usedReferenceWorld).1 = none ∧
    (SaveTransaction (scenarioEnv 3) (transactionAt "TXN1" 1700006400000000000)
        usedReferenceWorld).2.transactions ≠ usedReferenceWorld.transactions ∧
    (SaveTransaction (scenarioEnv 3) (transactionAt "TXN1" 1700006400000000000)
        usedReferenceWorld).2.transactions.map Transaction.TransactionID = ["TXN1", "TXN1"] ∧
    ¬ ((SaveTransaction (scenarioEnv 3) (transactionAt "TXN1" 1700006400000000000)
        usedReferenceWorld).2.transactions.map Transaction.TransactionID).Nodup := by
  decide

/-- C16, amended: a successful `SaveTransaction(t)` appends `t` after the
existing records, which are unchanged, whether or not the reference of `t` is
already present; on a collection with pairwise distinct references the
references stay pairwise distinct exactly when the reference of `t` was not
present. -/
theorem SaveTransaction_appends_unconditionally (env : Env) (w : World) (t : Transaction)
    (hsave : (SaveTransaction env t w).1 = none) :
    (SaveTransaction env t w).2.transactions = w.transactions ++ [t] ∧
    ((w.transactions.map Transaction.TransactionID).Nodup →
      (((SaveTransaction env t w).2.transactions.map Transaction.TransactionID).Nodup ↔
        t.TransactionID ∉ w.transactions.map Transaction.TransactionID)) := by
  rw [SaveTransaction_ok_transactions env t w hsave]
  refine ⟨rfl, fun hnd => ?_⟩
  rw [List.map_append, List.nodup_append]
  constructor
  · intro h hmem
    exact h.2.2 hmem (List.mem_singleton_self _)
  · intro h
    refine ⟨hnd, List.nodup_singleton _, fun a ha hat => ?_⟩
    rw [List.map_cons, List.map_nil, List.mem_singleton] at hat
    exact h (hat ▸ ha)

/-- C16 amended, on the empty store with a new reference. -/
theorem SaveTransaction_appends_unconditionally_witness :
    (SaveTransaction (scenarioEnv 3) (transactionAt "TXN1" 1700006400000000000) emptyWorld).1
      = none ∧
    (SaveTransaction (scenarioEnv 3) (transactionAt "TXN1" 1700006400000000000)
        emptyWorld).2.transactions
      = emptyWorld.transactions ++ [transactionAt "TXN1" 1700006400000000000] :=
  ⟨by decide,
    (SaveTransaction_appends_unconditionally (scenarioEnv 3) emptyWorld
      (transactionAt "TXN1" 1700006400000000000) (by decide)).1⟩

/-- A record of the upserted states is an old record or the saved one. -/
theorem SaveUserState_update_mem (states : List UserState) (s x : UserState)
    (hx : x ∈ SaveUserState.update states s) : x ∈ states ∨ x = s := by
  induction states with
  | nil => right; simpa [SaveUserState_update_nil] using hx
  | cons y ys ih =>
    by_cases hy : y.UserID = s.UserID
    · rw [SaveUserState_update_cons_eq y s ys hy] at hx
      rcases List.mem_cons.mp hx with h | h
      · exact Or.inr h
      · exact Or.inl (List.mem_cons_of_mem _ h)
    · rw [SaveUserState_update_cons_ne y s ys hy] at hx
      rcases List.mem_cons.mp hx with h | h
      · exact Or.inl (h ▸ List.mem_cons_self _ _)
      · rcases ih h with h2 | h2
        · exact Or.inl (List.mem_cons_of_mem _ h2)
        · exact Or.inr h2

/-- The upsert keeps the user IDs of the states pairwise distinct. -/
theorem SaveUserState_update_nodup (states : List UserState) (s : UserState)
    (hnd : (states.map UserState.UserID).Nodup) :
    ((SaveUserState.update states s).map UserState.UserID).Nodup := by
  induction states with
  | nil => simp [SaveUserState_update_nil]
  | cons y ys ih =>
    simp only [List.map_cons, List.nodup_cons, List.mem_map, not_exists, not_and] at hnd
    by_cases hy : y.UserID = s.UserID
    · rw [SaveUserState_update_cons_eq y s ys hy]
      simp only [List.map_cons, List.nodup_cons, List.mem_map, not_exists, not_and]
      exact ⟨fun x hx hxu => hnd.1 x hx (hxu.trans hy.symm), hnd.2⟩
    · rw [SaveUserState_update_cons_ne y s ys hy]
      simp only [List.map_cons, List.nodup_cons, List.mem_map, not_exists, not_and]
      refine ⟨fun x hx hxy => ?_, ih hnd.2⟩
      rcases SaveUserState_update_mem ys s x hx with h | h
      · exact hnd.1 x h hxy
      · subst h
        exact hy hxy.symm

/-- With pairwise distinct IDs, the saved state is the one record of its user
after the upsert. -/
theorem SaveUserState_update_filter_eq (states : List UserState) (s : UserState)
    (hnd : (states.map UserState.UserID).Nodup) :
    (SaveUserState.update states s).filter (fun x => decide (x.UserID = s.UserID)) = [s] := by
  induction states with
  | nil => simp [SaveUserState_update_nil]
  | cons y ys ih =>
    simp only [List.map_cons, List.nodup_cons, List.mem_map, not_exists, not_and] at hnd
    by_cases hy : y.UserID = s.UserID
    · rw [SaveUserState_update_cons_eq y s ys hy]
      have hnone : ys.filter (fun x => decide (x.UserID = s.UserID)) = [] := by
        rw [List.filter_eq_nil_iff]
        intro x hx
        simpa using fun hxs => hnd.1 x hx (hxs.trans hy.symm)
      simp [List.filter_cons, hnone]
    · rw [SaveUserState_update_cons_ne y s ys hy]
      simp [List.filter_cons, hy, ih hnd.2]

/-- The upsert leaves the records of the other users as they are, in order. -/
theorem SaveUserState_update_filter_ne (states : List UserState) (s : UserState) :
    (SaveUserState.update states s).filter (fun x => decide (x.UserID ≠ s.UserID))
      = states.filter (fun x => decide (x.UserID ≠ s.UserID)) := by
  induction states with
  | nil => simp [SaveUserState_update_nil]
  | cons y ys ih =>
    by_cases hy : y.UserID = s.UserID
    · rw [SaveUserState_update_cons_eq y s ys hy]
      simp [List.filter_cons, hy]
    · rw [SaveUserState_update_cons_ne y s ys hy]
      simp only [List.filter_cons, hy, ne_eq, not_false_eq_true, decide_True, if_true]
      rw [← ih]

/-- The records left by the deletion are records of the collection. -/
theorem DeleteUserState_loop_sublist (uid : Int) (states : List UserState) :
    (DeleteUserState.loop uid states).Sublist states := by
  induction states with
  | nil => exact List.Sublist.refl _
  | cons y ys ih =>
    by_cases hy : y.UserID = uid
    · simp only [DeleteUserState.loop, hy, if_true]
      exact List.sublist_cons_self _ _
    · simp only [DeleteUserState.loop, hy, if_false]
      exact ih.cons₂ _

/-- The deletion leaves the records of the other users as they are, in order. -/
theorem DeleteUserState_loop_filter_ne (uid : Int) (states : List UserState) :
    (DeleteUserState.loop uid states).filter (fun x => decide (x.UserID ≠ uid))
      = states.filter (fun x => decide (x.UserID ≠ uid)) := by
  induction states with
  | nil => rfl
  | cons y ys ih =>
    by_cases hy : y.UserID = uid
    · simp [DeleteUserState.loop, List.filter_cons, hy]
    · simp only [DeleteUserState.loop, List.filter_cons, hy, ne_eq, not_false_eq_true,
        decide_True, if_true, if_false]
      rw [← ih]

/-- C17: on a states collection with at most one record per user ID and with
the Drive reachable, `SaveUserState(s)` and `DeleteUserState(id)` produce a
collection with at most one record per user ID again.  After `SaveUserState(s)`
the records of `s.UserID` are exactly the one record `s`; after
`DeleteUserState(id)` there is no record of `id`, and nothing at all has changed
when `id` had no record; in both cases the records of all other users are the
same, in the same order. -/
theorem state_writes_keep_one_record_per_user (env : Env) (w : World) (s : UserState)
    (uid : Int) (hok : ∀ k, env.faults k = Fault.ok)
    (hnd : (w.states.map UserState.UserID).Nodup) :
    (((SaveUserState env s w).2.states.map UserState.UserID).Nodup ∧
      (SaveUserState env s w).2.states.filter (fun x => decide (x.UserID = s.UserID)) = [s] ∧
      (SaveUserState env s w).2.states.filter (fun x => decide (x.UserID ≠ s.UserID))
        = w.states.filter (fun x => decide (x.UserID ≠ s.UserID))) ∧
    (((DeleteUserState env uid w).2.states.map UserState.UserID).Nodup ∧
      (DeleteUserState env uid w).2.states.filter (fun x => decide (x.UserID = uid)) = [] ∧
      (DeleteUserState env uid w).2.states.filter (fun x => decide (x.UserID ≠ uid))
        = w.states.filter (fun x => decide (x.UserID ≠ uid)) ∧
      ((∀ x ∈ w.states, x.UserID ≠ uid) → (DeleteUserState env uid w).2.states = w.states)) := by
  rw [SaveUserState_ok_states env s w (hok _) (hok _),
    DeleteUserState_ok_states env uid w (hok _) (hok _)]
  refine ⟨⟨SaveUserState_update_nodup _ s hnd, SaveUserState_update_filter_eq _ s hnd,
    SaveUserState_update_filter_ne _ s⟩, ?_, ?_, DeleteUserState_loop_filter_ne uid _, ?_⟩
  · exact hnd.sublist ((DeleteUserState_loop_sublist uid w.states).map _)
  · rw [List.filter_eq_nil_iff]
    intro x hx
    have h := (GetUserState_loop_eq_none uid _).mp (GetUserState_loop_delete uid w.states hnd) x hx
    simpa using h
  · intro habs
    exact DeleteUserState_loop_of_absent uid w.states
      ((GetUserState_loop_eq_none uid w.states).mpr habs)

/-- C17 on the store reached after user 7 selected a price: saving a state for
user 8 and deleting the state of user 7. -/
theorem state_writes_keep_one_record_per_user_witness :
    ((run (scenarioEnv 3) [callbackUpdate alice "select_amount:50"] emptyWorld).states.map
      UserState.UserID).Nodup ∧
    ((DeleteUserState (scenarioEnv 3) 7
        (run (scenarioEnv 3) [callbackUpdate alice "select_amount:50"] emptyWorld)).2.states.map
      UserState.UserID).Nodup ∧
    (DeleteUserState (scenarioEnv 3) 7
        (run (scenarioEnv 3) [callbackUpdate alice "select_amount:50"] emptyWorld)).2.states.filter
      (fun x => decide (x.UserID = 7)) = [] :=
  ⟨by decide,
    (state_writes_keep_one_record_per_user (scenarioEnv 3)
      (run (scenarioEnv 3) [callbackUpdate alice "select_amount:50"] emptyWorld)
      { UserID := 8, CurrentState := "awaiting_transaction_id", SelectedAmount := f10,
        TransactionID := "", UniqueCode := "", InvalidAttempts := 0, LastUpdated := theDay }
      7 (fun _ => rfl) (by decide)).2.1,
    (state_writes_keep_one_record_per_user (scenarioEnv 3)
      (run (scenarioEnv 3) [callbackUpdate alice "select_amount:50"] emptyWorld)
      { UserID := 8, CurrentState := "awaiting_transaction_id", SelectedAmount := f10,
        TransactionID := "", UniqueCode := "", InvalidAttempts := 0, LastUpdated := theDay }
      7 (fun _ => rfl) (by decide)).2.2.1⟩

/-! ## Free text of idle users and unchecked amounts -/

/-- C18 as stated fails: user 7 has no persisted state and sends the free text
`hello`, which is not a command; with `maxInvalidAttempts = 3` the states
collection afterwards holds a record of user 7, with an empty label and the
counter at 1. -/
theorem free_text_of_idle_user_creates_a_state :
    GetUserState.loop 7 emptyWorld.states = none ∧
    (textMessage alice "hello").IsCommand = false ∧
    (run (scenarioEnv 3) [textUpdate alice "hello"] emptyWorld).states.map
        (fun s => (s.UserID, s.CurrentState, s.InvalidAttempts)) = [(7, "", 1)] ∧
    GetUserState.loop 7 (run (scenarioEnv 3) [textUpdate alice "hello"] emptyWorld).states
      ≠ none := by
  decide

/-- C18, amended: for a user without persisted state, a free-text message that
is not a command and passes the rate limiter, handled with the Drive reachable,
appends a state record of that user with an empty label, the counter at 1 and
empty scratch fields when `maxInvalidAttempts > 1`; when
`maxInvalidAttempts ≤ 1` the states collection is afterwards as it was, so the
user still has no record. -/
theorem free_text_of_idle_user_saves_counting_state (env : Env) (w : World) (u : Update)
    (m : Message) (hok : ∀ k, env.faults k = Fault.ok)
    (hm : u.Message = some m) (hgate : (checkRateLimit env m.From.ID w).1 = some true)
    (hcmd : m.IsCommand = false) (htext : m.Text ≠ "")
    (hidle : GetUserState.loop m.From.ID w.states = none) :
    (1 < env.config.MaxInvalidAttempts →
      ∃ st, (handleUpdate env u w).states = w.states ++ [st] ∧ st.UserID = m.From.ID ∧
        st.CurrentState = "" ∧ st.InvalidAttempts = 1 ∧ st.SelectedAmount = Float64.zero ∧
        st.TransactionID = "" ∧ st.UniqueCode = "") ∧
    (env.config.MaxInvalidAttempts ≤ 1 →
      (handleUpdate env u w).states = w.states ∧
      GetUserState.loop m.From.ID (handleUpdate env u w).states = none) := by
  rw [handleUpdate_of_text env u m w hm hgate hcmd htext]
  have h := handleText_idle_states env m (checkRateLimit env m.From.ID w).2 hok
    (by simpa using hidle)
  simp only [checkRateLimit_frame] at h
  refine ⟨fun hmax => ?_, fun hmax => ?_⟩
  · have hn : ¬ (1 ≥ env.config.MaxInvalidAttempts) := by omega
    rw [if_neg hn] at h
    exact ⟨_, h, rfl, rfl, rfl, rfl, rfl, rfl⟩
  · have hp : (1 : Int) ≥ env.config.MaxInvalidAttempts := by omega
    rw [if_pos hp] at h
    exact ⟨h, by rw [h]; exact hidle⟩

/-- C18 amended, for the idle user 7 and the text `hello` with
`maxInvalidAttempts = 3`. -/
theorem free_text_of_idle_user_saves_counting_state_witness :
    (checkRateLimit (scenarioEnv 3) 7 emptyWorld).1 = some true ∧
    GetUserState.loop 7 emptyWorld.states = none ∧
    (1 : Int) < (scenarioEnv 3).config.MaxInvalidAttempts ∧
    ∃ st, (handleUpdate (scenarioEnv 3) (textUpdate alice "hello") emptyWorld).states
        = emptyWorld.states ++ [st] ∧
      st.UserID = 7 ∧ st.CurrentState = "" ∧ st.InvalidAttempts = 1 ∧
      st.SelectedAmount = Float64.zero ∧ st.TransactionID = "" ∧ st.UniqueCode = "" :=
  ⟨by decide, by decide, by decide,
    (free_text_of_idle_user_saves_counting_state (scenarioEnv 3) emptyWorld
      (textUpdate alice "hello") (textMessage alice "hello") (fun _ => rfl) rfl (by decide) rfl
      (by decide) (by decide)).1 (by decide)⟩

/-- C20: for a callback `select_amount:<payload>` whose payload is not `start`
and which `strconv.ParseFloat` reads as `x`, the handling leaves, with the Drive
reachable, a persisted state of the pressing user with
`CurrentState = "awaiting_transaction_id"` and `SelectedAmount = x`; the
configured prices occur nowhere in the hypotheses.  And a completed flow can
yield an entry whose amount is not a configured price: with prices
`[10, 50, 100]`, the callback `select_amount:7`, the reference `TXN1` and the
number `57` leave an entry with `TicketAmount = 7`. -/
theorem any_parsed_amount_is_persisted (env : Env) (w : World) (u : Update)
    (cb : CallbackQuery) (d : String) (x : Float64)
    (hm : u.Message = none) (hcb : u.CallbackQuery = some cb)
    (hdata : cb.Data = "select_amount:" ++ d) (hcolon : ':' ∉ d.data)
    (hparse : env.parseFloat d = some x) (hnot : d ≠ "start")
    (hok : ∀ k, env.faults k = Fault.ok) :
    (∃ st, GetUserState.loop cb.From.ID (handleUpdate env u w).states = some st ∧
      st.UserID = cb.From.ID ∧ st.CurrentState = "awaiting_transaction_id" ∧
      st.SelectedAmount = x) ∧
    (f7 ∉ offListEnv.config.Prices ∧
      ∃ e ∈ (run offListEnv
          [callbackUpdate alice "select_amount:7", textUpdate alice "TXN1",
            textUpdate alice "57"]
          emptyWorld).entries,
        e.TicketAmount = f7 ∧ e.TransactionID = "TXN1" ∧ e.LuckyNumber = 57) := by
  have hs := handleAmountSelection_parsed env cb d w x hok hnot hparse
  have hu : (handleUpdate env u w).states = (handleAmountSelection env cb d w).states := by
    simp [handleUpdate, hm, hcb, handleCallback, hdata, Split_select_amount d hcolon]
  refine ⟨?_, by decide, by decide⟩
  rw [hu, hs]
  exact ⟨_, GetUserState_loop_update w.states
      { UserID := cb.From.ID, CurrentState := "awaiting_transaction_id", SelectedAmount := x,
        TransactionID := "", UniqueCode := "", InvalidAttempts := 0,
        LastUpdated := env.clock w.ticks },
    rfl, rfl, rfl⟩

/-- C20 for the payload `7` with prices `[10, 50, 100]`, on a store where the
pressing user already has a state. -/
theorem any_parsed_amount_is_persisted_witness :
    offListEnv.parseFloat "7" = some f7 ∧ f7 ∉ offListEnv.config.Prices ∧
    ∃ st, GetUserState.loop 7
        (handleUpdate offListEnv (callbackUpdate alice "select_amount:7")
          usedReferenceWorld).states = some st ∧
      st.UserID = 7 ∧ st.CurrentState = "awaiting_transaction_id" ∧ st.SelectedAmount = f7 :=
  ⟨by decide, by decide,
    (any_parsed_amount_is_persisted offListEnv usedReferenceWorld
      (callbackUpdate alice "select_amount:7") (buttonPress alice "select_amount:7") "7" f7
      rfl rfl rfl (by decide) (by decide) (by decide) (fun _ => rfl)).1⟩

/-! ## The home button -/

/-- The upsert does not change what a lookup of another ID finds. -/
theorem GetUser_loop_update_ne (users : List User) (u : User) (uid : Int)
    (h : uid ≠ u.UserID) :
    GetUser.loop uid (SaveUser.update users u) = GetUser.loop uid users := by
  induction users with
  | nil => simp [SaveUser_update_nil, GetUser.loop, h.symm]
  | cons y ys ih =>
    by_cases hy : y.UserID = u.UserID
    · have hyu : y.UserID ≠ uid := fun e => h (e.symm.trans hy)
      simp [SaveUser_update_cons_eq y u ys hy, GetUser.loop, h.symm, hyu]
    · rw [SaveUser_update_cons_ne y u ys hy]
      by_cases hyu : y.UserID = uid
      · simp [GetUser.loop, hyu]
      · simp [GetUser.loop, hyu, ih]

/-- The users collection after `SaveUser`: as before, or upserted. -/
theorem SaveUser_users_cases (env : Env) (u : User) (w : World) :
    (SaveUser env u w).2.users = w.users ∨
    (SaveUser env u w).2.users = SaveUser.update w.users u := by
  simp only [SaveUser]
  repeat' split
  all_goals simp

/-- The store after a `navigation:home` callback is the store after
`handleStartCommand` on the message that carried the button. -/
theorem handleUpdate_home (env : Env) (u : Update) (cb : CallbackQuery) (w : World)
    (hm : u.Message = none) (hcb : u.CallbackQuery = some cb)
    (hdata : cb.Data = "navigation:home") :
    (handleUpdate env u w).users = (handleStartCommand env cb.Message w).users ∧
    (handleUpdate env u w).states = w.states := by
  have hsplit : Split "navigation:home" ':' = ["navigation", "home"] := by decide
  simp [handleUpdate, hm, hcb, handleCallback, hdata, hsplit, handleNavigation]

/-- C21: for a `navigation:home` callback, the record `handleNavigation` has
`SaveUser` upsert carries the ID and the names of the sender of the message
that carried the button (`callback.Message.From`), not of the user who pressed
it (`callback.From`): with the Drive reachable the users collection afterwards
is the old one with that record upserted, and a lookup of the message sender's
ID finds it.  When the two IDs differ, a lookup of the pressing user finds what
it found before, whatever the Drive does; and the states collection is
unchanged in every case. -/
theorem home_button_saves_the_message_sender (env : Env) (w : World) (u : Update)
    (cb : CallbackQuery)
    (hm : u.Message = none) (hcb : u.CallbackQuery = some cb)
    (hdata : cb.Data = "navigation:home") :
    (handleNavigation env cb "home" w = handleStartCommand env cb.Message w) ∧
    ((∀ k, env.faults k = Fault.ok) →
      (handleUpdate env u w).users
        = SaveUser.update w.users
            { UserID := cb.Message.From.ID, Username := cb.Message.From.UserName,
              FirstName := cb.Message.From.FirstName, LastName := cb.Message.From.LastName,
              JoinedDate := env.clock w.ticks, Status := "active" } ∧
      GetUser.loop cb.Message.From.ID (handleUpdate env u w).users
        = some { UserID := cb.Message.From.ID, Username := cb.Message.From.UserName,
                 FirstName := cb.Message.From.FirstName, LastName := cb.Message.From.LastName,
                 JoinedDate := env.clock w.ticks, Status := "active" }) ∧
    (cb.From.ID ≠ cb.Message.From.ID →
      GetUser.loop cb.From.ID (handleUpdate env u w).users = GetUser.loop cb.From.ID w.users) ∧
    (handleUpdate env u w).states = w.states ∧
    GetUserState.loop cb.From.ID (handleUpdate env u w).states
      = GetUserState.loop cb.From.ID w.states := by
  have hh := handleUpdate_home env u cb w hm hcb hdata
  refine ⟨by simp [handleNavigation], ?_, ?_, hh.2, by rw [hh.2]⟩
  · intro hok
    have e : (handleUpdate env u w).users
        = SaveUser.update w.users
            { UserID := cb.Message.From.ID, Username := cb.Message.From.UserName,
              FirstName := cb.Message.From.FirstName, LastName := cb.Message.From.LastName,
              JoinedDate := env.clock w.ticks, Status := "active" } := by
      rw [hh.1]
      simp [handleStartCommand, SaveUser_ok env _ _ (hok _) (hok _)]
    exact ⟨e, by
      rw [e]
      exact GetUser_loop_update w.users
        { UserID := cb.Message.From.ID, Username := cb.Message.From.UserName,
          FirstName := cb.Message.From.FirstName, LastName := cb.Message.From.LastName,
          JoinedDate := env.clock w.ticks, Status := "active" }⟩
  · intro hne
    rw [hh.1]
    have hc := SaveUser_users_cases env
      { UserID := cb.Message.From.ID, Username := cb.Message.From.UserName,
        FirstName := cb.Message.From.FirstName, LastName := cb.Message.From.LastName,
        JoinedDate := env.clock w.ticks, Status := "active" }
      { w with ticks := w.ticks + 1 }
    have hu : (handleStartCommand env cb.Message w).users
        = (SaveUser env
            { UserID := cb.Message.From.ID, Username := cb.Message.From.UserName,
              FirstName := cb.Message.From.FirstName, LastName := cb.Message.From.LastName,
              JoinedDate := env.clock w.ticks, Status := "active" }
            { w with ticks := w.ticks + 1 }).2.users := by
      simp [handleStartCommand]
    rw [hu]
    rcases hc with h | h
    · rw [h]
    · rw [h]
      exact GetUser_loop_update_ne _ _ _ hne

/-- C21 on a store where user 7 has a user record and a pending purchase and
presses the home button of a message the bot (ID 1000) sent: the bot's own
account is saved as a user, and the record and the state of user 7 stay. -/
theorem home_button_saves_the_message_sender_witness :
    (buttonPress alice "navigation:home").From.ID
      ≠ (buttonPress alice "navigation:home").Message.From.ID ∧
    GetUser.loop 1000
        (handleUpdate (scenarioEnv 3) (callbackUpdate alice "navigation:home")
          (run (scenarioEnv 3) purchaseStarted twoUsersWorld)).users
      = some { UserID := 1000, Username := "lottery_bot", FirstName := "Lottery", LastName := "",
               JoinedDate :=
                 (scenarioEnv 3).clock (run (scenarioEnv 3) purchaseStarted twoUsersWorld).ticks,
               Status := "active" } ∧
    GetUser.loop 7
        (handleUpdate (scenarioEnv 3) (callbackUpdate alice "navigation:home")
          (run (scenarioEnv 3) purchaseStarted twoUsersWorld)).users
      = some aliceRecord ∧
    (handleUpdate (scenarioEnv 3) (callbackUpdate alice "navigation:home")
        (run (scenarioEnv 3) purchaseStarted twoUsersWorld)).states.map
      (fun s => (s.UserID, s.CurrentState)) = [(7, "awaiting_lucky_number")] :=
  ⟨by decide,
    ((home_button_saves_the_message_sender (scenarioEnv 3)
      (run (scenarioEnv 3) purchaseStarted twoUsersWorld)
      (callbackUpdate alice "navigation:home") (buttonPress alice "navigation:home")
      rfl rfl rfl).2.1 (fun _ => rfl)).2,
    by decide, by decide⟩

end LotteryBot
